import Mathlib

/-!
Verification of the `datealgo` date-algorithm library (`src/lib.rs`).

The Rust source is shallowly embedded below.  Unsigned machine integers
(`u8`, `u32`, `u64`) are modelled as `Nat`, with an explicit `% 2^32` /
`% 2^64` wherever the corresponding Rust operation is performed at that
width and could wrap; signed integers (`i32`, `i64`) are modelled as `Int`.
Rust casts are modelled explicitly: `x as u32` on an `i32` is
`(x % 2^32).toNat`, `x as i32` on a `u32` is `u32_as_i32`, and Rust's
truncating `%` and `/` on signed integers are `Int.tmod` / `Int.tdiv`.
Lean's `%` and `/` on `Int` are the Euclidean (sign-of-divisor) variants,
which coincide with Rust's unsigned operations on the `Nat` side.
-/

set_option maxRecDepth 40000

namespace Datealgo

/-- Adjustment from Unix epoch in eras (source constant `ERA_OFFSET`). -/
def ERA_OFFSET : Int := 3670

/-- Days in a 400-year era (source constant `DAYS_IN_ERA`). -/
def DAYS_IN_ERA : Int := 146097

/-- Years in an era (source constant `YEARS_IN_ERA`). -/
def YEARS_IN_ERA : Int := 400

/-- Days from 0000-03-01 to the Unix epoch (source constant `DAYS_TO_UNIX_EPOCH`). -/
def DAYS_TO_UNIX_EPOCH : Int := 719468

/-- Offset added to day values (source constant `DAY_OFFSET`). -/
def DAY_OFFSET : Int := ERA_OFFSET * DAYS_IN_ERA + DAYS_TO_UNIX_EPOCH

/-- Offset added to year values (source constant `YEAR_OFFSET`). -/
def YEAR_OFFSET : Int := ERA_OFFSET * YEARS_IN_ERA

/-- Seconds in a day (source constant `SECS_IN_DAY`). -/
def SECS_IN_DAY : Int := 86400

/-- Offset added to second values (source constant `SECS_OFFSET`). -/
def SECS_OFFSET : Int := DAY_OFFSET * SECS_IN_DAY

/-- Minimum supported year (source constant `YEAR_MIN`). -/
def YEAR_MIN : Int := -1467999

/-- Maximum supported year (source constant `YEAR_MAX`). -/
def YEAR_MAX : Int := 1471744

/-- Source `is_leap_year`.  In the source the tests are `(y % 25) != 0`
(Rust truncating remainder, `Int.tmod`), `y & 3 == 0` and `y & 15 == 0`;
on a two's-complement `i32`, masking with `2^k - 1` extracts the value
modulo `2^k` in the Euclidean sense, i.e. `y % 4` resp. `y % 16` here. -/
def is_leap_year (y : Int) : Bool :=
  if y.tmod 25 ≠ 0 then y % 4 == 0 else y % 16 == 0

/-- Source `days_in_month`: the 5-bit XOR trick for all months except
February, which consults `is_leap_year`. -/
def days_in_month (y : Int) (m : Nat) : Nat :=
  if m ≠ 2 then 30 ||| (m ^^^ (m >>> 3))
  else if is_leap_year y then 29 else 28

/-- Source `date_to_internal`: Gregorian date to computational-calendar
fields `(century, shifted year, shifted month, day)`.  The year is cast
`as u32` and the January/February flag is subtracted with wrapping `u32`
arithmetic. -/
def date_to_internal (y : Int) (m d : Nat) : Nat × Nat × Nat × Nat :=
  let yu := ((y + YEAR_OFFSET) % 4294967296).toNat
  let jf := if m < 3 then 1 else 0
  let yu := (yu + 4294967296 - jf) % 4294967296
  let c := yu / 100
  let mm := m + 12 * jf
  (c, yu, mm, d)

/-- Reinterpretation of a `u32` bit pattern as an `i32` (Rust `as i32`). -/
def u32_as_i32 (n : Nat) : Int :=
  if n < 2147483648 then (n : Int) else (n : Int) - 4294967296

/-- Source `date_to_rd`: Gregorian date to Rata Die, Neri-Schneider
closed forms in `u32` arithmetic (each step wraps at `2^32`; the
subtraction `979*m - 2919` cannot go below zero because the shifted
month is at least 3). -/
def date_to_rd : Int × Nat × Nat → Int
  | (y, m, d) =>
    let i := date_to_internal y m d
    let c := i.1
    let yu := i.2.1
    let mm := i.2.2.1
    let dd := (i.2.2.2 + 4294967296 - 1) % 4294967296
    let yy := ((1461 * yu) % 4294967296 / 4 + 4294967296 - c) % 4294967296
    let yy := (yy + c / 4) % 4294967296
    let mmm := (979 * mm - 2919) / 32
    let n := (yy + mmm + dd) % 4294967296
    u32_as_i32 n - DAY_OFFSET

/-- Minimum Rata Die (source constant `RD_MIN = date_to_rd((YEAR_MIN, 1, 1))`). -/
def RD_MIN : Int := date_to_rd (YEAR_MIN, 1, 1)

/-- Maximum Rata Die (source constant `RD_MAX = date_to_rd((YEAR_MAX, 12, 31))`). -/
def RD_MAX : Int := date_to_rd (YEAR_MAX, 12, 31)

/-- Minimum supported seconds value (source constant `RD_SECONDS_MIN`). -/
def RD_SECONDS_MIN : Int := RD_MIN * SECS_IN_DAY

/-- Maximum supported seconds value (source constant `RD_SECONDS_MAX`). -/
def RD_SECONDS_MAX : Int := RD_MAX * SECS_IN_DAY + SECS_IN_DAY - 1

/-- Source constant `P64_OVER_SEVEN = ((1 << 63) / 7) << 1`, the truncated
binary reciprocal of 7 at 64 bits. -/
def P64_OVER_SEVEN : Nat := ((1 <<< 63) / 7) <<< 1

/-- Source constant `P32_OVER_SEVEN = ((1 << 31) / 7) << 1` from
`date_to_weekday`. -/
def P32_OVER_SEVEN : Nat := ((1 <<< 31) / 7) <<< 1

/-- Source `rd_to_date`: Rata Die to Gregorian date via Euclidean affine
functions.  All intermediate values are `u32`/`u64`; `r | 3` is bitwise
or; the `m - 12` subtraction happens only when the computed day-of-year
is at least 306, in which case the computed month is at least 13. -/
def rd_to_date (n : Int) : Int × Nat × Nat :=
  let N := ((n + DAY_OFFSET) % 4294967296).toNat
  let n1 := (4 * N + 3) % 4294967296
  let c := n1 / 146097
  let r := n1 % 146097
  let n2 := r ||| 3
  let p := (2939745 * n2) % 18446744073709551616
  let z := p / 4294967296
  let n3 := p % 4294967296 / 2939745 / 4
  let j := decide (306 ≤ n3)
  let yv := (100 * c + z + (if j then 1 else 0)) % 4294967296
  let n4 := (2141 * n3 + 197913) % 4294967296
  let mm := n4 / 65536
  let dd := n4 % 65536 / 2141
  let y := u32_as_i32 yv - YEAR_OFFSET
  let mm := if j then mm - 12 else mm
  (y, mm, dd + 1)

/-- Source `rd_to_weekday`: multiply `(n - RD_MIN) as u64 + 1` by
`P64_OVER_SEVEN` with wrapping `u64` multiplication and keep the top
three bits. -/
def rd_to_weekday (n : Int) : Nat :=
  (((((n - RD_MIN) % 18446744073709551616).toNat + 1)
      * P64_OVER_SEVEN) % 18446744073709551616) >>> 61

/-- Source `date_to_weekday`: mod-7 adaptation of `date_to_rd` followed by
the 32-bit reciprocal-of-7 multiply-shift (`wrapping_mul`). -/
def date_to_weekday : Int × Nat × Nat → Nat
  | (y, m, d) =>
    let i := date_to_internal y m d
    let c := i.1
    let yu := i.2.1
    let mm := i.2.2.1
    let dd := i.2.2.2
    let yy := ((5 * yu) % 4294967296 / 4 + 4294967296 - c) % 4294967296
    let yy := (yy + c / 4) % 4294967296
    let mw := (979 * mm - 2855) / 32
    let n := (yy + mw + dd) % 4294967296
    ((n * P32_OVER_SEVEN) % 4294967296) >>> 29

/-- Source `next_date`: increment with manual carry. -/
def next_date : Int × Nat × Nat → Int × Nat × Nat
  | (y, m, d) =>
    if d < 28 ∨ d < days_in_month y m then (y, m, d + 1)
    else if m < 12 then (y, m + 1, 1)
    else (y + 1, 1, 1)

/-- Source `prev_date`: decrement with manual carry. -/
def prev_date : Int × Nat × Nat → Int × Nat × Nat
  | (y, m, d) =>
    if 1 < d then (y, m, d - 1)
    else if 1 < m then (y, m - 1, days_in_month y (m - 1))
    else (y - 1, 12, 31)

/-- Source `secs_to_dhms`.  The guard replacing out-of-range positive
inputs by 0 is in the source (`if secs > RD_SECONDS_MAX { 0 }`); the sum
`secs + SECS_OFFSET` is cast `as u64` and split with the truncated
reciprocal of 60.  The final `as u8` casts are lossless because the
minute and second quotients are structurally below 60 and the hour
quotient below 24. -/
def secs_to_dhms (secs : Int) : Int × Nat × Nat × Nat :=
  let secs := if RD_SECONDS_MAX < secs then 0 else secs
  let su := ((secs + SECS_OFFSET) % 18446744073709551616).toNat
  let days := (su / 86400) % 4294967296
  let s2 := su % 86400
  let prd := (71582789 * s2) % 18446744073709551616
  let mins := prd >>> 32
  let ss := prd % 4294967296 / 71582789
  let prd2 := (71582789 * mins) % 18446744073709551616
  let hh := prd2 >>> 32
  let mm := prd2 % 4294967296 / 71582789
  (u32_as_i32 days - DAY_OFFSET, hh, mm, ss)

/-- Source `dhms_to_secs`: weighted sum guarded by the day range check
(the `i64` sum cannot overflow for any `i32` day count). -/
def dhms_to_secs : Int × Nat × Nat × Nat → Int
  | (d, h, m, s) =>
    if RD_MIN ≤ d ∧ d ≤ RD_MAX then
      d * 86400 + (h : Int) * 3600 + (m : Int) * 60 + (s : Int)
    else 0

/-- Source `rd_to_isoweekdate`.  `(4 - wd) % 7` is Rust's truncating
remainder on `i32` (`Int.tmod`), `(rdt - ys) / 7` truncating division
(`Int.tdiv`), and the week is cast `as u8` (low eight bits). -/
def rd_to_isoweekdate (rd : Int) : Int × Nat × Nat :=
  let wd := rd_to_weekday rd
  let rdt := rd + (4 - (wd : Int)).tmod 7
  let y := (rd_to_date rdt).1
  let ys := date_to_rd (y, 1, 1)
  let w := (((rdt - ys).tdiv 7 + 1) % 256).toNat
  (y, w, wd)

/-- Source `isoweekdate_to_rd`.  `wd4 - 1` is wrapping `u8` arithmetic
before the cast `as i32`. -/
def isoweekdate_to_rd : Int × Nat × Nat → Int
  | (y, w, d) =>
    let rd4 := date_to_rd (y, 1, 4)
    let wd4 := rd_to_weekday rd4
    let ys := rd4 - (((wd4 + 256 - 1) % 256 : Nat) : Int)
    ys + ((w : Int) - 1) * 7 + ((d : Int) - 1)

/-- Source `isoweeks_in_year`: 53 when January 1st is a Thursday, or a
Wednesday of a leap year; 52 otherwise. -/
def isoweeks_in_year (y : Int) : Nat :=
  let wd := date_to_weekday (y, 1, 1)
  if wd = 4 then 53
  else if wd = 3 ∧ is_leap_year y then 53
  else 52

/-- Source `systemtime_to_secs`.  `SystemTime` is modelled as the signed
offset of the instant from the Unix epoch in nanoseconds;
`duration_since(UNIX_EPOCH)` then yields `Ok` with the split of `st`
into seconds and sub-second nanoseconds when `st` is not before the
epoch, and `Err` carrying the split of `-st` otherwise.  `Duration`
seconds are `u64` in Rust; the borrow increment `secs += 1` in the
negative branch is modelled with its wrapping semantics.  The casts
`RD_SECONDS_MAX as u64` and `(-RD_SECONDS_MIN) as u64` are exact since
both values are positive, and `-(secs as i64)` is exact because it is
evaluated only after `secs` was checked to be at most
`-RD_SECONDS_MIN < 2^63`. -/
def systemtime_to_secs (st : Int) : Option (Int × Int) :=
  if 0 ≤ st then
    let secs := st.toNat / 1000000000
    let nsecs := st.toNat % 1000000000
    if RD_SECONDS_MAX.toNat < secs then none
    else some ((secs : Int), (nsecs : Int))
  else
    let dur := (-st).toNat
    let secs0 := dur / 1000000000
    let nsecs0 := dur % 1000000000
    let secs := if 0 < nsecs0 then (secs0 + 1) % 18446744073709551616 else secs0
    let nsecs := if 0 < nsecs0 then 1000000000 - nsecs0 else nsecs0
    if (-RD_SECONDS_MIN).toNat < secs then none
    else some (-(secs : Int), (nsecs : Int))

/-- Validity of a Gregorian date, exactly the precondition documented for
`date_to_rd`. -/
def ValidDate (y : Int) (m d : Nat) : Prop :=
  YEAR_MIN ≤ y ∧ y ≤ YEAR_MAX ∧ 1 ≤ m ∧ m ≤ 12 ∧ 1 ≤ d ∧ d ≤ days_in_month y m

-- Sanity checks against the documented examples of the source.
example : date_to_rd (1970, 1, 1) = 0 := by decide
example : date_to_rd (2023, 5, 12) = 19489 := by decide
example : rd_to_date 19489 = (2023, 5, 12) := by decide
example : rd_to_date 0 = (1970, 1, 1) := by decide
example : date_to_rd (0, 1, 1) = -719528 := by decide
example : rd_to_date (-719528) = (0, 1, 1) := by decide
example : RD_MIN = -536895152 := by decide
example : RD_MAX = 536824295 := by decide
example : RD_SECONDS_MIN = -46387741132800 := by decide
example : RD_SECONDS_MAX = 46381619174399 := by decide
example : rd_to_weekday 0 = 4 := by decide
example : rd_to_weekday 19489 = 5 := by decide
example : date_to_weekday (2023, 5, 12) = 5 := by decide
example : date_to_weekday (2023, 1, 1) = 7 := by decide
example : secs_to_dhms (-1) = (-1, 23, 59, 59) := by decide
example : secs_to_dhms 1684574678 = (19497, 9, 24, 38) := by decide
example : dhms_to_secs (-1, 0, 0, 1) = -86399 := by decide
example : rd_to_isoweekdate 19489 = (2023, 19, 5) := by decide
example : isoweekdate_to_rd (2023, 19, 5) = 19489 := by decide
example : rd_to_isoweekdate 0 = (1970, 1, 4) := by decide
example : isoweeks_in_year 2026 = 53 := by decide
example : isoweeks_in_year 2023 = 52 := by decide
example : is_leap_year 2024 = true := by decide
example : is_leap_year 2100 = false := by decide
example : is_leap_year (-4) = true := by decide
example : is_leap_year (-100) = false := by decide
example : is_leap_year (-400) = true := by decide
example : days_in_month 2023 2 = 28 := by decide
example : days_in_month 2024 2 = 29 := by decide
example : systemtime_to_secs 0 = some (0, 0) := by decide
example : systemtime_to_secs (-1) = some (-1, 999999999) := by decide
example : systemtime_to_secs 1000000001 = some (1, 1) := by decide

/-!
Helper layer: concrete values of the derived constants, the bitwise `| 3`
identity, exactness of the truncated-reciprocal multiply-shift tricks, and
the 400-year-era decomposition used by the Neri-Schneider algorithm.
-/

theorem YEAR_OFFSET_eq : YEAR_OFFSET = 1468000 := by decide

theorem DAY_OFFSET_eq : DAY_OFFSET = 536895458 := by decide

theorem SECS_OFFSET_eq : SECS_OFFSET = 46387767571200 := by decide

theorem RD_MIN_eq : RD_MIN = -536895152 := by decide

theorem RD_MAX_eq : RD_MAX = 536824295 := by decide

theorem RD_SECONDS_MIN_eq : RD_SECONDS_MIN = -46387741132800 := by decide

theorem RD_SECONDS_MAX_eq : RD_SECONDS_MAX = 46381619174399 := by decide

theorem P64_OVER_SEVEN_eq : P64_OVER_SEVEN = 2635249153387078802 := by decide

theorem P32_OVER_SEVEN_eq : P32_OVER_SEVEN = 613566756 := by decide

/-- Setting the two low bits of `r` yields `4 * (r / 4) + 3`. -/
theorem or_three (r : Nat) : r ||| 3 = 4 * (r / 4) + 3 := by
  apply Nat.eq_of_testBit_eq
  intro i
  rw [Nat.testBit_or]
  match i with
  | 0 =>
    rw [Nat.testBit_zero, Nat.testBit_zero, Nat.testBit_zero]
    have h2 : (4 * (r / 4) + 3) % 2 = 1 := by omega
    have h3 : (3 : Nat) % 2 = 1 := by norm_num
    simp [h2, h3]
  | 1 =>
    rw [show (1 : Nat) = Nat.succ 0 from rfl, Nat.testBit_succ, Nat.testBit_succ,
      Nat.testBit_succ, Nat.testBit_zero, Nat.testBit_zero, Nat.testBit_zero]
    have h2 : (4 * (r / 4) + 3) / 2 % 2 = 1 := by omega
    have h3 : (3 : Nat) / 2 % 2 = 1 := by norm_num
    simp [h2, h3]
  | (i + 2) =>
    rw [show i + 2 = Nat.succ (Nat.succ i) from rfl]
    rw [Nat.testBit_succ, Nat.testBit_succ, Nat.testBit_succ, Nat.testBit_succ,
      Nat.testBit_succ, Nat.testBit_succ]
    have h1 : (3 : Nat) / 2 / 2 = 0 := by norm_num
    have h2 : (4 * (r / 4) + 3) / 2 / 2 = r / 4 := by omega
    have h3 : r / 2 / 2 = r / 4 := by omega
    rw [h1, h2, h3]
    simp

/-- Exactness of the `2939745 ≈ 2^32 / 1461` multiply-shift on a
year-of-era input `1461 * q + s`. -/
theorem magic1461 (q s : Nat) (hq : q ≤ 99) (hs : s < 1461) :
    2939745 * (1461 * q + s) / 4294967296 = q ∧
    2939745 * (1461 * q + s) % 4294967296 / 2939745 = s := by
  have hK : 149 * q + 2939745 * s < 4294967296 := by omega
  have hx : 2939745 * (1461 * q + s)
      = 4294967296 * q + (149 * q + 2939745 * s) := by ring
  constructor
  · rw [hx, Nat.mul_add_div (by norm_num), Nat.div_eq_of_lt hK]
    omega
  · rw [hx, Nat.mul_add_mod, Nat.mod_eq_of_lt hK,
      Nat.add_mul_div_left _ _ (by norm_num : (0:Nat) < 2939745),
      Nat.div_eq_of_lt (by omega)]
    omega

/-- Exactness of the `71582789 ≈ 2^32 / 60` multiply-shift below the
documented bound `97612919`. -/
theorem magic60 (q s : Nat) (hn : 60 * q + s < 97612919) (hs : s < 60) :
    71582789 * (60 * q + s) / 4294967296 = q ∧
    71582789 * (60 * q + s) % 4294967296 / 71582789 = s := by
  have hK : 44 * q + 71582789 * s < 4294967296 := by omega
  have hx : 71582789 * (60 * q + s)
      = 4294967296 * q + (44 * q + 71582789 * s) := by ring
  constructor
  · rw [hx, Nat.mul_add_div (by norm_num), Nat.div_eq_of_lt hK]
    omega
  · rw [hx, Nat.mul_add_mod, Nat.mod_eq_of_lt hK,
      Nat.add_mul_div_left _ _ (by norm_num : (0:Nat) < 71582789),
      Nat.div_eq_of_lt (by omega)]
    omega

theorem magic7_64_pos (a b : Nat) (ha : a ≤ 171428572) (hb1 : 1 ≤ b) (hb6 : b ≤ 6) :
    (7 * a + b) * 2635249153387078802 % 18446744073709551616
      / 2305843009213693952 = b := by
  have hx : (7 * a + b) * 2635249153387078802
      = 18446744073709551616 * a + (b * 2635249153387078802 - 2 * a) := by
    omega
  rw [hx, Nat.mul_add_mod, Nat.mod_eq_of_lt (by omega)]
  omega

theorem magic7_64_zero (a : Nat) (ha1 : 1 ≤ a) (ha : a ≤ 171428572) :
    (7 * a) * 2635249153387078802 % 18446744073709551616
      / 2305843009213693952 = 7 := by
  have hx : (7 * a) * 2635249153387078802
      = 18446744073709551616 * (a - 1) + (18446744073709551616 - 2 * a) := by
    omega
  rw [hx, Nat.mul_add_mod, Nat.mod_eq_of_lt (by omega)]
  omega

/-- Exactness of the 64-bit reciprocal-of-7 weekday trick over the whole
range the library needs. -/
theorem magic7_64 (v : Nat) (h1 : 1 ≤ v) (h2 : v ≤ 1200000000) :
    v * 2635249153387078802 % 18446744073709551616 / 2305843009213693952
      = (v - 1) % 7 + 1 := by
  have hd : v = 7 * (v / 7) + v % 7 := (Nat.div_add_mod v 7).symm
  by_cases hb : v % 7 = 0
  · have hv : v = 7 * (v / 7) := by omega
    rw [hv, magic7_64_zero (v / 7) (by omega) (by omega)]
    omega
  · rw [hd, magic7_64_pos (v / 7) (v % 7) (by omega) (by omega) (by omega)]
    omega

theorem magic7_32_pos (a b : Nat) (ha : a ≤ 19000000) (hb1 : 1 ≤ b) (hb6 : b ≤ 6) :
    (7 * a + b) * 613566756 % 4294967296 / 536870912 = b := by
  have hx : (7 * a + b) * 613566756
      = 4294967296 * a + (b * 613566756 - 4 * a) := by omega
  rw [hx, Nat.mul_add_mod, Nat.mod_eq_of_lt (by omega)]
  omega

theorem magic7_32_zero (a : Nat) (ha1 : 1 ≤ a) (ha : a ≤ 19000000) :
    (7 * a) * 613566756 % 4294967296 / 536870912 = 7 := by
  have hx : (7 * a) * 613566756
      = 4294967296 * (a - 1) + (4294967296 - 4 * a) := by omega
  rw [hx, Nat.mul_add_mod, Nat.mod_eq_of_lt (by omega)]
  omega

/-- Exactness of the 32-bit reciprocal-of-7 trick used by
`date_to_weekday`; its pre-shift sum is far below the `1.3e8` bound. -/
theorem magic7_32 (v : Nat) (h1 : 1 ≤ v) (h2 : v ≤ 130000000) :
    v * 613566756 % 4294967296 / 536870912 = (v - 1) % 7 + 1 := by
  have hd : v = 7 * (v / 7) + v % 7 := (Nat.div_add_mod v 7).symm
  by_cases hb : v % 7 = 0
  · have hv : v = 7 * (v / 7) := by omega
    rw [hv, magic7_32_zero (v / 7) (by omega) (by omega)]
    omega
  · rw [hd, magic7_32_pos (v / 7) (v % 7) (by omega) (by omega) (by omega)]
    omega

/-- Day count, within the shifted (March-first) calendar, of the start of
shifted year `Y`: the closed form used by `date_to_rd`. -/
def ydc (Y : Nat) : Nat := 1461 * Y / 4 - Y / 100 + Y / 100 / 4

/-- Century of the era decomposition of a shifted day number `N`. -/
def eraC (N : Nat) : Nat := (4 * N + 3) / 146097

/-- The quantity `r | 3` scaled back down: `(4 * N + 3) % 146097 / 4`. -/
def eraU (N : Nat) : Nat := (4 * N + 3) % 146097 / 4

/-- Year of century in the era decomposition of `N`. -/
def eraQ (N : Nat) : Nat := (4 * eraU N + 3) / 1461

/-- Day of shifted year in the era decomposition of `N`. -/
def eraN3 (N : Nat) : Nat := (4 * eraU N + 3) % 1461 / 4

theorem ydc_decomp (C Q : Nat) (hQ : Q ≤ 99) :
    ydc (100 * C + Q) = 36524 * C + C / 4 + 365 * Q + Q / 4 := by
  unfold ydc
  have h1 : (100 * C + Q) / 100 = C := by omega
  rw [h1]
  have h2 : 1461 * (100 * C + Q) = 4 * (36525 * C + 365 * Q) + Q := by ring
  rw [h2]
  have h3 : (4 * (36525 * C + 365 * Q) + Q) / 4 = 36525 * C + 365 * Q + Q / 4 := by
    omega
  rw [h3]
  omega

/-- The forward era decomposition: peeling century, year of century and
day of year off `N` with the integer arithmetic of `rd_to_date` inverts
`ydc`, and a day-of-year of 365 forces the leap-year alignment. -/
theorem era_fwd (N : Nat) :
    eraU N ≤ 36524 ∧ eraQ N ≤ 99 ∧ eraN3 N ≤ 365 ∧
    ydc (100 * eraC N + eraQ N) + eraN3 N = N ∧
    (eraN3 N = 365 →
      (eraQ N + 1) % 4 = 0 ∧ (eraQ N = 99 → (eraC N + 1) % 4 = 0)) := by
  simp only [eraC, eraU, eraQ, eraN3]
  set c := (4 * N + 3) / 146097 with hc
  set r := (4 * N + 3) % 146097 with hrdef
  have hcr : 4 * N + 3 = 146097 * c + r := by rw [hc, hrdef]; omega
  have hrb : r < 146097 := by rw [hrdef]; omega
  set u := r / 4 with hu
  have huv : r = 4 * u + r % 4 := by omega
  have hub : u ≤ 36524 := by omega
  have hcm : c % 4 + r % 4 = 3 := by omega
  have hNd : N = 36524 * c + u + c / 4 := by omega
  set q := (4 * u + 3) / 1461 with hq
  set s := (4 * u + 3) % 1461 with hsdef
  have hqs : 4 * u + 3 = 1461 * q + s := by rw [hq, hsdef]; omega
  have hsb : s < 1461 := by rw [hsdef]; omega
  have hq99 : q ≤ 99 := by omega
  have hqm : q % 4 + s % 4 = 3 := by omega
  set n3 := s / 4 with hn3
  have hn3e : s = 4 * n3 + s % 4 := by omega
  have hud : u = 365 * q + n3 + q / 4 := by omega
  rw [ydc_decomp c q hq99]
  refine ⟨hub, hq99, by omega, by omega, ?_⟩
  intro h365
  have hs1460 : s = 1460 := by omega
  refine ⟨by omega, ?_⟩
  intro hq99e
  have hu1 : u = 36524 := by omega
  have hr1 : r % 4 = 0 := by omega
  omega

/-- The backward era decomposition: starting from a century, year of
century and a day of year satisfying the leap-year alignment, the
arithmetic of `rd_to_date` recovers exactly those components. -/
theorem era_bwd (C Q doy : Nat) (hQ : Q ≤ 99) (hdoy : doy ≤ 365)
    (h365 : doy = 365 → (Q + 1) % 4 = 0 ∧ (Q = 99 → (C + 1) % 4 = 0)) :
    eraC (ydc (100 * C + Q) + doy) = C ∧
    eraQ (ydc (100 * C + Q) + doy) = Q ∧
    eraN3 (ydc (100 * C + Q) + doy) = doy := by
  simp only [eraC, eraU, eraQ, eraN3]
  rw [ydc_decomp C Q hQ]
  set N := 36524 * C + C / 4 + 365 * Q + Q / 4 + doy with hN
  have hfeb : doy = 365 → Q % 4 = 3 ∧ (Q = 99 → C % 4 = 3) := by
    intro hd
    obtain ⟨h1, h2⟩ := h365 hd
    exact ⟨by omega, fun hq => by have := h2 hq; omega⟩
  have hr4 : 4 * N + 3 = 146097 * C + (1461 * Q - Q % 4 + 4 * doy + 3 - C % 4) := by
    omega
  have hRb : 1461 * Q - Q % 4 + 4 * doy + 3 - C % 4 < 146097 := by
    by_cases hd : doy = 365
    · obtain ⟨h1, h2⟩ := hfeb hd
      by_cases hq : Q = 99
      · have := h2 hq; omega
      · omega
    · omega
  have hcp : (4 * N + 3) / 146097 = C := by omega
  have hrp : (4 * N + 3) % 146097 = 1461 * Q - Q % 4 + 4 * doy + 3 - C % 4 := by
    omega
  rw [hcp, hrp]
  have hRdiv : (1461 * Q - Q % 4 + 4 * doy + 3 - C % 4) / 4
      = 365 * Q + Q / 4 + doy := by omega
  rw [hRdiv]
  have hrprime : 4 * (365 * Q + Q / 4 + doy) + 3 = 1461 * Q - Q % 4 + 4 * doy + 3 := by
    omega
  rw [hrprime]
  have hsb : 4 * doy + 3 - Q % 4 < 1461 := by
    by_cases hd : doy = 365
    · have := (hfeb hd).1; omega
    · omega
  have hqp : (1461 * Q - Q % 4 + 4 * doy + 3) / 1461 = Q := by omega
  have hsp : (1461 * Q - Q % 4 + 4 * doy + 3) % 1461 = 4 * doy + 3 - Q % 4 := by omega
  rw [hqp, hsp]
  omega

/-- A `u32` bit pattern below `2^31` reinterprets as itself. -/
theorem u32_as_i32_small (n : Nat) (h : n < 2147483648) : u32_as_i32 n = (n : Int) := by
  unfold u32_as_i32
  rw [if_pos h]

/-- Congruence step for results of the form `u32_as_i32 _ - DAY_OFFSET`. -/
theorem cast_sub_eq (nv K : Nat) (h : nv = K) (hlt : K < 2147483648) :
    u32_as_i32 nv - 536895458 = (K : Int) - 536895458 := by
  subst h
  rw [u32_as_i32_small _ hlt]

/-- The `u32` pipeline of `date_to_rd`, with the year already converted
to a natural number, collapses to the exact closed form. -/
theorem date_to_rd_core (yn jf m d : Nat)
    (hyn1 : 1 ≤ yn) (hyn2 : yn ≤ 2939744) (hjf : jf ≤ 1)
    (hm : 3 ≤ m + 12 * jf) (hm14 : m + 12 * jf ≤ 14) (hd1 : 1 ≤ d) (hd2 : d ≤ 31) :
    (((1461 * ((yn + 4294967296 - jf) % 4294967296) % 4294967296 / 4 + 4294967296 -
        (yn + 4294967296 - jf) % 4294967296 / 100) % 4294967296 +
        (yn + 4294967296 - jf) % 4294967296 / 100 / 4) % 4294967296 +
      (979 * (m + 12 * jf) - 2919) / 32 + (d + 4294967296 - 1) % 4294967296) % 4294967296
    = ydc (yn - jf) + (979 * (m + 12 * jf) - 2919) / 32 + (d - 1) := by
  have e1 : (yn + 4294967296 - jf) % 4294967296 = yn - jf := by omega
  rw [e1]
  have hYb : yn - jf ≤ 2939744 := by omega
  have e2 : 1461 * (yn - jf) % 4294967296 = 1461 * (yn - jf) := by
    have : 1461 * (yn - jf) ≤ 4294965984 := by omega
    omega
  rw [e2]
  have hq14 : 1461 * (yn - jf) / 4 ≤ 1073741496 := by omega
  have hcq : (yn - jf) / 100 ≤ 1461 * (yn - jf) / 4 := by omega
  have e3 : (1461 * (yn - jf) / 4 + 4294967296 - (yn - jf) / 100) % 4294967296
      = 1461 * (yn - jf) / 4 - (yn - jf) / 100 := by omega
  rw [e3]
  have e4 : (1461 * (yn - jf) / 4 - (yn - jf) / 100 + (yn - jf) / 100 / 4) % 4294967296
      = 1461 * (yn - jf) / 4 - (yn - jf) / 100 + (yn - jf) / 100 / 4 := by omega
  rw [e4]
  have e5 : (d + 4294967296 - 1) % 4294967296 = d - 1 := by omega
  rw [e5]
  have hmm : (979 * (m + 12 * jf) - 2919) / 32 ≤ 337 := by omega
  unfold ydc
  omega

/-- Evaluation of `date_to_rd` on an in-range date: all the wrapping
`u32` arithmetic collapses to the exact closed form
`ydc Y + month contribution + (d - 1) - DAY_OFFSET`. -/
theorem date_to_rd_eval (y : Int) (m d : Nat)
    (hy1 : YEAR_MIN ≤ y) (hy2 : y ≤ YEAR_MAX) (hm1 : 1 ≤ m) (hm2 : m ≤ 12)
    (hd1 : 1 ≤ d) (hd2 : d ≤ 31) :
    date_to_rd (y, m, d)
      = ((ydc ((y + 1468000).toNat - (if m < 3 then 1 else 0))
          + (979 * (m + 12 * (if m < 3 then 1 else 0)) - 2919) / 32
          + (d - 1) : Nat) : Int) - 536895458 := by
  rw [show YEAR_MIN = -1467999 from rfl] at hy1
  rw [show YEAR_MAX = 1471744 from rfl] at hy2
  have ht : ((y + 1468000) % 4294967296).toNat = (y + 1468000).toNat := by omega
  have hb1 : 1 ≤ (y + 1468000).toNat := by omega
  have hb2 : (y + 1468000).toNat ≤ 2939744 := by omega
  simp only [date_to_rd, date_to_internal, YEAR_OFFSET_eq, DAY_OFFSET_eq, ht]
  by_cases hm3 : m < 3 <;> simp only [hm3, if_true, if_false] <;>
    refine cast_sub_eq _ _ ?_ ?_
  · exact date_to_rd_core _ 1 m d hb1 hb2 (by omega) (by omega) (by omega) hd1 hd2
  · have := date_to_rd_core (y + 1468000).toNat 1 m d hb1 hb2 (by omega)
      (by omega) (by omega) hd1 hd2
    unfold ydc
    omega
  · exact date_to_rd_core _ 0 m d hb1 hb2 (by omega) (by omega) (by omega) hd1 hd2
  · have := date_to_rd_core (y + 1468000).toNat 0 m d hb1 hb2 (by omega)
      (by omega) (by omega) hd1 hd2
    unfold ydc
    omega

/-- Evaluation of `rd_to_date` on an in-range day number `N - DAY_OFFSET`:
the wrapping arithmetic and the two multiply-shift tricks collapse to the
era decomposition `(eraC, eraQ, eraN3)` followed by the month table. -/
theorem rd_to_date_eval (N : Nat) (hN : N ≤ 1073741823) :
    rd_to_date ((N : Int) - 536895458)
      = (((100 * eraC N + eraQ N + (if 306 ≤ eraN3 N then 1 else 0) : Nat) : Int)
           - 1468000,
         (if 306 ≤ eraN3 N then (2141 * eraN3 N + 197913) / 65536 - 12
          else (2141 * eraN3 N + 197913) / 65536),
         (2141 * eraN3 N + 197913) % 65536 / 2141 + 1) := by
  simp only [rd_to_date, DAY_OFFSET_eq, YEAR_OFFSET_eq]
  have a1 : (((N : Int) - 536895458 + 536895458) % 4294967296).toNat = N := by omega
  rw [a1]
  have a2 : (4 * N + 3) % 4294967296 = 4 * N + 3 := by omega
  rw [a2, or_three ((4 * N + 3) % 146097)]
  have hx146099 : 4 * ((4 * N + 3) % 146097 / 4) + 3 ≤ 146099 := by omega
  have a4 : 2939745 * (4 * ((4 * N + 3) % 146097 / 4) + 3) % 18446744073709551616
      = 2939745 * (4 * ((4 * N + 3) % 146097 / 4) + 3) := by omega
  rw [a4]
  obtain ⟨m1, m2⟩ := magic1461 ((4 * ((4 * N + 3) % 146097 / 4) + 3) / 1461)
    ((4 * ((4 * N + 3) % 146097 / 4) + 3) % 1461) (by omega) (by omega)
  rw [Nat.div_add_mod] at m1 m2
  rw [m1, m2]
  simp only [decide_eq_true_eq, eraC, eraU, eraQ, eraN3]
  have hz : (4 * ((4 * N + 3) % 146097 / 4) + 3) / 1461 ≤ 99 := by omega
  have hn3 : (4 * ((4 * N + 3) % 146097 / 4) + 3) % 1461 / 4 ≤ 365 := by omega
  have hc : (4 * N + 3) / 146097 ≤ 29398 := by omega
  by_cases hj : 306 ≤ (4 * ((4 * N + 3) % 146097 / 4) + 3) % 1461 / 4 <;>
    simp only [hj, if_true, if_false]
  · have a7 : (100 * ((4 * N + 3) / 146097)
        + (4 * ((4 * N + 3) % 146097 / 4) + 3) / 1461 + 1) % 4294967296
        = 100 * ((4 * N + 3) / 146097)
          + (4 * ((4 * N + 3) % 146097 / 4) + 3) / 1461 + 1 := by omega
    have a8 : (2141 * ((4 * ((4 * N + 3) % 146097 / 4) + 3) % 1461 / 4) + 197913)
        % 4294967296
        = 2141 * ((4 * ((4 * N + 3) % 146097 / 4) + 3) % 1461 / 4) + 197913 := by
      omega
    rw [a7, a8, u32_as_i32_small _ (by omega)]
  · have a7 : (100 * ((4 * N + 3) / 146097)
        + (4 * ((4 * N + 3) % 146097 / 4) + 3) / 1461 + 0) % 4294967296
        = 100 * ((4 * N + 3) / 146097)
          + (4 * ((4 * N + 3) % 146097 / 4) + 3) / 1461 := by omega
    have a8 : (2141 * ((4 * ((4 * N + 3) % 146097 / 4) + 3) % 1461 / 4) + 197913)
        % 4294967296
        = 2141 * ((4 * ((4 * N + 3) % 146097 / 4) + 3) % 1461 / 4) + 197913 := by
      omega
    rw [a7, a8, u32_as_i32_small _ (by omega)]
    have : (100 * ((4 * N + 3) / 146097)
        + (4 * ((4 * N + 3) % 146097 / 4) + 3) / 1461 + 0)
        = 100 * ((4 * N + 3) / 146097)
          + (4 * ((4 * N + 3) % 146097 / 4) + 3) / 1461 := by omega
    rw [this]

/-- The bitmask leap-year test agrees with the standard divisibility rule. -/
theorem is_leap_year_iff_dvd (y : Int) :
    is_leap_year y = true ↔ (4 ∣ y ∧ (¬(100 ∣ y) ∨ 400 ∣ y)) := by
  unfold is_leap_year
  by_cases h25 : y.tmod 25 = 0
  · have hdvd : (25 : Int) ∣ y := Int.dvd_of_tmod_eq_zero h25
    simp only [h25, ne_eq, not_true_eq_false, if_false, beq_iff_eq]
    omega
  · have hdvd : ¬((25 : Int) ∣ y) := fun h => h25 (Int.tmod_eq_zero_of_dvd h)
    simp only [h25, ne_eq, not_false_eq_true, if_true, beq_iff_eq]
    omega

/-- Leap-year status of the civil year written as `internal year - 1468000`. -/
theorem is_leap_internal (yn : Nat) :
    is_leap_year ((yn : Int) - 1468000) = true ↔
      (yn % 4 = 0 ∧ (yn % 100 ≠ 0 ∨ yn % 400 = 0)) := by
  rw [is_leap_year_iff_dvd]
  omega

/-- Case table for `days_in_month` over the twelve months. -/
theorem days_in_month_cases (y : Int) (m : Nat) (h1 : 1 ≤ m) (h2 : m ≤ 12) :
    days_in_month y m
      = if m = 2 then (if is_leap_year y then 29 else 28)
        else if m = 4 ∨ m = 6 ∨ m = 9 ∨ m = 11 then 30 else 31 := by
  interval_cases m <;> simp [days_in_month]

/-- Range of `days_in_month`. -/
theorem days_in_month_bounds (y : Int) (m : Nat) (h1 : 1 ≤ m) (h2 : m ≤ 12) :
    28 ≤ days_in_month y m ∧ days_in_month y m ≤ 31 := by
  rw [days_in_month_cases y m h1 h2]
  split
  · split <;> omega
  · split <;> omega

set_option synthInstance.maxSize 1000 in
/-- Finite check: the month/day extraction of `rd_to_date` inverts the
month contribution of `date_to_rd` for every shifted month `M` and
0-based day `e` within the shifted month lengths. -/
theorem month_recover : ∀ M < 15, ∀ e < 31, 3 ≤ M →
    e + 1 ≤ (if M = 14 then 29 else if M = 13 then 31
             else 30 ||| (M ^^^ (M >>> 3))) →
    ((2141 * ((979 * M - 2919) / 32 + e) + 197913) / 65536 = M ∧
     (2141 * ((979 * M - 2919) / 32 + e) + 197913) % 65536 / 2141 = e ∧
     (306 ≤ (979 * M - 2919) / 32 + e ↔ 13 ≤ M)) := by decide

set_option synthInstance.maxSize 1000 in
/-- Finite check: within the shifted month lengths the day-of-year stays
below 366, and only the last day of a shifted leap February reaches 365. -/
theorem month_recover_top : ∀ M < 15, ∀ e < 31, 3 ≤ M →
    e + 1 ≤ (if M = 14 then 29 else if M = 13 then 31
             else 30 ||| (M ^^^ (M >>> 3))) →
    (((979 * M - 2919) / 32 + e ≤ 365) ∧
     ((979 * M - 2919) / 32 + e = 365 → M = 14 ∧ e = 28)) := by decide

set_option synthInstance.maxSize 1000 in
/-- Finite check: for every day-of-shifted-year the extracted month is in
`3..14`, the extracted day is within the month, the January/February flag
matches `306 ≤ doy`, the month contribution plus the day reconstitutes
the day-of-year, and day 29 of shifted February only occurs as day 365. -/
theorem month_of_doy : ∀ doy < 366,
    (3 ≤ (2141 * doy + 197913) / 65536 ∧ (2141 * doy + 197913) / 65536 ≤ 14 ∧
     (13 ≤ (2141 * doy + 197913) / 65536 ↔ 306 ≤ doy) ∧
     (979 * ((2141 * doy + 197913) / 65536) - 2919) / 32
        + (2141 * doy + 197913) % 65536 / 2141 = doy ∧
     (2141 * doy + 197913) % 65536 / 2141 + 1
        ≤ (if (2141 * doy + 197913) / 65536 = 14 then 29
           else if (2141 * doy + 197913) / 65536 = 13 then 31
           else 30 ||| (((2141 * doy + 197913) / 65536)
                ^^^ (((2141 * doy + 197913) / 65536) >>> 3))) ∧
     ((2141 * doy + 197913) / 65536 = 14 →
       (2141 * doy + 197913) % 65536 / 2141 = 28 → doy = 365)) := by decide

/-- Master theorem for the date-to-day-count direction: a valid date maps
into `[RD_MIN, RD_MAX]` and `rd_to_date` recovers it. -/
theorem date_to_rd_spec (y : Int) (m d : Nat) (h : ValidDate y m d) :
    (-536895152 ≤ date_to_rd (y, m, d) ∧ date_to_rd (y, m, d) ≤ 536824295) ∧
    rd_to_date (date_to_rd (y, m, d)) = (y, m, d) := by
  obtain ⟨hy1, hy2, hm1, hm2, hd1, hd2⟩ := h
  have hdimb := days_in_month_bounds y m hm1 hm2
  have hd31 : d ≤ 31 := le_trans hd2 hdimb.2
  have hev := date_to_rd_eval y m d hy1 hy2 hm1 hm2 hd1 hd31
  rw [show YEAR_MIN = -1467999 from rfl] at hy1
  rw [show YEAR_MAX = 1471744 from rfl] at hy2
  have hyn1 : 1 ≤ (y + 1468000).toNat := by omega
  have hyn2 : (y + 1468000).toNat ≤ 2939744 := by omega
  have hcast : ((y + 1468000).toNat : Int) = y + 1468000 := by omega
  by_cases hm3 : m < 3
  all_goals simp only [hm3, if_true, if_false, Nat.mul_one, Nat.mul_zero,
    Nat.add_zero, Nat.sub_zero] at hev
  · -- January / February: shifted month m + 12, shifted year yn - 1
    set yn := (y + 1468000).toNat with hyndef
    set C := (yn - 1) / 100 with hC
    set Q := (yn - 1) % 100 with hQ
    have hYdecomp : yn - 1 = 100 * C + Q := by omega
    have hQ99 : Q ≤ 99 := by omega
    have hC29 : C ≤ 29397 := by omega
    -- day bound within the shifted month
    have hlen : (d - 1) + 1 ≤ (if m + 12 = 14 then 29 else if m + 12 = 13 then 31
        else 30 ||| ((m + 12) ^^^ ((m + 12) >>> 3))) := by
      have h12 : m = 1 ∨ m = 2 := by omega
      rcases h12 with h1 | h2
      · subst h1; simp only [show (1:Nat) + 12 = 13 from rfl]
        norm_num
        omega
      · subst h2
        have hdim2 : days_in_month y 2 = if is_leap_year y then 29 else 28 := by
          rw [days_in_month_cases y 2 (by norm_num) (by norm_num)]
          norm_num
        rw [hdim2] at hd2
        rw [if_pos (by norm_num : (2:Nat) + 12 = 14)]
        split at hd2 <;> omega
    obtain ⟨mr1, mr2, mr3⟩ :=
      month_recover (m + 12) (by omega) (d - 1) (by omega) (by omega) hlen
    obtain ⟨mt1, mt2⟩ :=
      month_recover_top (m + 12) (by omega) (d - 1) (by omega) (by omega) hlen
    set doy := (979 * (m + 12) - 2919) / 32 + (d - 1) with hdoydef
    -- leap alignment when the day of year is 365 (shifted Feb 29)
    have h365 : doy = 365 → (Q + 1) % 4 = 0 ∧ (Q = 99 → (C + 1) % 4 = 0) := by
      intro h365e
      obtain ⟨hM14, he28⟩ := mt2 h365e
      have hm2e : m = 2 := by omega
      have hd29 : d = 29 := by omega
      have hleap : is_leap_year y = true := by
        have hdim2 : days_in_month y 2 = if is_leap_year y then 29 else 28 := by
          rw [days_in_month_cases y 2 (by norm_num) (by norm_num)]
          norm_num
        rw [hm2e, hd29, hdim2] at hd2
        by_cases hl : is_leap_year y = true
        · exact hl
        · rw [if_neg hl] at hd2
          omega
      have hleap2 := (is_leap_internal yn).mp (by
        rw [show ((yn : Int) - 1468000) = y from by omega]
        exact hleap)
      omega
    have hbwd := era_bwd C Q doy hQ99 mt1 h365
    have hydc := ydc_decomp C Q hQ99
    rw [hYdecomp] at hev
    have hNval : ydc (100 * C + Q) + (979 * (m + 12) - 2919) / 32 + (d - 1)
        = ydc (100 * C + Q) + doy := by omega
    rw [hNval] at hev
    have hNb : ydc (100 * C + Q) + doy ≤ 1073741823 := by omega
    have hrdev := rd_to_date_eval (ydc (100 * C + Q) + doy) hNb
    rw [hbwd.1, hbwd.2.1, hbwd.2.2] at hrdev
    constructor
    · rw [hev]
      have hmdoy : 306 ≤ (979 * (m + 12) - 2919) / 32 := by omega
      omega
    · rw [hev, hrdev]
      have hflag : 306 ≤ doy := by omega
      simp only [if_pos hflag, Prod.mk.injEq]
      refine ⟨by omega, by omega, by omega⟩
  · -- March .. December: shifted month m, shifted year yn
    set yn := (y + 1468000).toNat with hyndef
    set C := yn / 100 with hC
    set Q := yn % 100 with hQ
    have hYdecomp : yn = 100 * C + Q := by omega
    have hQ99 : Q ≤ 99 := by omega
    have hC29 : C ≤ 29397 := by omega
    have hlen : (d - 1) + 1 ≤ (if m = 14 then 29 else if m = 13 then 31
        else 30 ||| (m ^^^ (m >>> 3))) := by
      rw [if_neg (by omega), if_neg (by omega)]
      have hdm : days_in_month y m = 30 ||| (m ^^^ (m >>> 3)) := by
        unfold days_in_month
        rw [if_pos (by omega : m ≠ 2)]
      omega
    obtain ⟨mr1, mr2, mr3⟩ :=
      month_recover m (by omega) (d - 1) (by omega) (by omega) hlen
    obtain ⟨mt1, mt2⟩ :=
      month_recover_top m (by omega) (d - 1) (by omega) (by omega) hlen
    set doy := (979 * m - 2919) / 32 + (d - 1) with hdoydef
    have h365 : doy = 365 → (Q + 1) % 4 = 0 ∧ (Q = 99 → (C + 1) % 4 = 0) := by
      intro h365e
      obtain ⟨hM14, he28⟩ := mt2 h365e
      omega
    have hbwd := era_bwd C Q doy hQ99 mt1 h365
    have hydc := ydc_decomp C Q hQ99
    rw [hYdecomp] at hev
    have hNval : ydc (100 * C + Q) + (979 * m - 2919) / 32 + (d - 1)
        = ydc (100 * C + Q) + doy := by omega
    rw [hNval] at hev
    have hNb : ydc (100 * C + Q) + doy ≤ 1073741823 := by omega
    have hrdev := rd_to_date_eval (ydc (100 * C + Q) + doy) hNb
    rw [hbwd.1, hbwd.2.1, hbwd.2.2] at hrdev
    constructor
    · rw [hev]
      have hCQ1 : 1 ≤ 100 * C + Q := by omega
      have hmdoy : (979 * m - 2919) / 32 ≤ 275 := by omega
      omega
    · rw [hev, hrdev]
      have hflag : ¬(306 ≤ doy) := by omega
      simp only [if_neg hflag, Prod.mk.injEq]
      refine ⟨by omega, by omega, by omega⟩

/-- Master theorem for the day-count-to-date direction: on the supported
range `rd_to_date` produces a valid Gregorian date and `date_to_rd`
recovers the day number. -/
theorem rd_to_date_spec (n : Int) (h1 : -536895152 ≤ n) (h2 : n ≤ 536824295) :
    ValidDate (rd_to_date n).1 (rd_to_date n).2.1 (rd_to_date n).2.2 ∧
    date_to_rd (rd_to_date n) = n := by
  set N := (n + 536895458).toNat with hNdef
  have hNn : (N : Int) = n + 536895458 := by omega
  have hNlo : 306 ≤ N := by omega
  have hNb : N ≤ 1073719753 := by omega
  have hrdev := rd_to_date_eval N (by omega)
  rw [show (N : Int) - 536895458 = n from by omega] at hrdev
  obtain ⟨hu36524, hq99, hn3365, hydcN, hfeb⟩ := era_fwd N
  obtain ⟨md3, md14, mdflag, mdsum, mdlen, mdfeb⟩ := month_of_doy (eraN3 N) (by omega)
  have hydc_dec := ydc_decomp (eraC N) (eraQ N) hq99
  have hup : 100 * eraC N + eraQ N ≤ 2939744 := by omega
  by_cases hj : 306 ≤ eraN3 N
  · simp only [if_pos hj] at hrdev
    rw [hrdev]
    have hup2 : 100 * eraC N + eraQ N + 1 ≤ 2939744 := by omega
    set M := (2141 * eraN3 N + 197913) / 65536 with hM
    set e := (2141 * eraN3 N + 197913) % 65536 / 2141 with he
    have hM1314 : 13 ≤ M ∧ M ≤ 14 := ⟨mdflag.mpr hj, md14⟩
    have hy0lo : YEAR_MIN ≤ ((100 * eraC N + eraQ N + 1 : Nat) : Int) - 1468000 := by
      rw [show YEAR_MIN = -1467999 from rfl]; omega
    have hy0hi : ((100 * eraC N + eraQ N + 1 : Nat) : Int) - 1468000 ≤ YEAR_MAX := by
      rw [show YEAR_MAX = 1471744 from rfl]; omega
    have hm0 : 1 ≤ M - 12 ∧ M - 12 ≤ 12 := by omega
    have hd0 : 1 ≤ e + 1 ∧ e + 1 ≤ 31 := by
      constructor
      · omega
      · have := mdlen
        split at this <;> omega
    -- the recovered date is valid
    have hleapcase : e + 1 = 29 → M = 14 →
        is_leap_year (((100 * eraC N + eraQ N + 1 : Nat) : Int) - 1468000) = true := by
      intro he29 hM14
      have h365 : eraN3 N = 365 := mdfeb hM14 (by omega)
      obtain ⟨hq4, hq99f⟩ := hfeb h365
      rw [show (((100 * eraC N + eraQ N + 1 : Nat) : Int) - 1468000)
          = ((100 * eraC N + eraQ N + 1 : Nat) : Int) - 1468000 from rfl]
      rw [is_leap_internal (100 * eraC N + eraQ N + 1)]
      by_cases hq : eraQ N = 99
      · have := hq99f hq
        omega
      · omega
    have hvd : e + 1 ≤ days_in_month
        (((100 * eraC N + eraQ N + 1 : Nat) : Int) - 1468000) (M - 12) := by
      have h12 : M - 12 = 1 ∨ M - 12 = 2 := by omega
      rcases h12 with h1 | h2
      · rw [h1]
        have : days_in_month (((100 * eraC N + eraQ N + 1 : Nat) : Int) - 1468000) 1
            = 31 := by
          unfold days_in_month
          rw [if_pos (by norm_num : (1:Nat) ≠ 2)]
          decide
        rw [this]
        exact hd0.2
      · rw [h2]
        have hM14 : M = 14 := by omega
        have hdim : days_in_month
            (((100 * eraC N + eraQ N + 1 : Nat) : Int) - 1468000) 2
            = if is_leap_year (((100 * eraC N + eraQ N + 1 : Nat) : Int) - 1468000)
              then 29 else 28 := by
          unfold days_in_month
          norm_num
        rw [hdim]
        by_cases he29 : e + 1 = 29
        · rw [if_pos (hleapcase he29 hM14)]
          omega
        · have : e + 1 ≤ 28 := by
            have := mdlen
            rw [if_pos (by omega : M = 14)] at this
            omega
          split <;> omega
    constructor
    · exact ⟨hy0lo, hy0hi, hm0.1, hm0.2, hd0.1, hvd⟩
    · -- date_to_rd of the recovered date gives n back
      have hev2 := date_to_rd_eval (((100 * eraC N + eraQ N + 1 : Nat) : Int) - 1468000)
        (M - 12) (e + 1) hy0lo hy0hi hm0.1 hm0.2 hd0.1 hd0.2
      rw [if_pos (by omega : M - 12 < 3)] at hev2
      rw [show ((((100 * eraC N + eraQ N + 1 : Nat) : Int) - 1468000 + 1468000).toNat)
          = 100 * eraC N + eraQ N + 1 from by omega] at hev2
      rw [show (M - 12) + 12 * 1 = M from by omega] at hev2
      rw [show 100 * eraC N + eraQ N + 1 - 1 = 100 * eraC N + eraQ N from by omega]
        at hev2
      rw [hev2]
      have : ydc (100 * eraC N + eraQ N) + (979 * M - 2919) / 32 + (e + 1 - 1) = N := by
        omega
      rw [this]
      omega
  · simp only [if_neg hj, Nat.add_zero] at hrdev
    rw [hrdev]
    set M := (2141 * eraN3 N + 197913) / 65536 with hM
    set e := (2141 * eraN3 N + 197913) % 65536 / 2141 with he
    have hM312 : 3 ≤ M ∧ M ≤ 12 := by
      constructor
      · exact md3
      · by_contra hcon
        exact hj (mdflag.mp (by omega))
    have hCQ1 : 1 ≤ 100 * eraC N + eraQ N := by
      by_contra hcon
      have hz : 100 * eraC N + eraQ N = 0 := by omega
      rw [hz] at hydcN
      have : ydc 0 = 0 := by decide
      omega
    have hy0lo : YEAR_MIN ≤ ((100 * eraC N + eraQ N : Nat) : Int) - 1468000 := by
      rw [show YEAR_MIN = -1467999 from rfl]; omega
    have hy0hi : ((100 * eraC N + eraQ N : Nat) : Int) - 1468000 ≤ YEAR_MAX := by
      rw [show YEAR_MAX = 1471744 from rfl]; omega
    have hd0 : 1 ≤ e + 1 ∧ e + 1 ≤ 31 := by
      constructor
      · omega
      · have := mdlen
        split at this <;> omega
    have hvd : e + 1 ≤ days_in_month
        (((100 * eraC N + eraQ N : Nat) : Int) - 1468000) M := by
      have hdm : days_in_month (((100 * eraC N + eraQ N : Nat) : Int) - 1468000) M
          = 30 ||| (M ^^^ (M >>> 3)) := by
        unfold days_in_month
        rw [if_pos (by omega : M ≠ 2)]
      rw [hdm]
      have := mdlen
      rw [if_neg (by omega : ¬ M = 14), if_neg (by omega : ¬ M = 13)] at this
      exact this
    constructor
    · exact ⟨hy0lo, hy0hi, le_trans (by norm_num) md3, hM312.2, hd0.1, hvd⟩
    · have hev2 := date_to_rd_eval (((100 * eraC N + eraQ N : Nat) : Int) - 1468000)
        M (e + 1) hy0lo hy0hi (by omega) hM312.2 hd0.1 hd0.2
      rw [if_neg (by omega : ¬ M < 3)] at hev2
      rw [show ((((100 * eraC N + eraQ N : Nat) : Int) - 1468000 + 1468000).toNat)
          = 100 * eraC N + eraQ N from by omega] at hev2
      rw [show M + 12 * 0 = M from by omega] at hev2
      rw [show 100 * eraC N + eraQ N - 0 = 100 * eraC N + eraQ N from by omega] at hev2
      rw [hev2]
      have : ydc (100 * eraC N + eraQ N) + (979 * M - 2919) / 32 + (e + 1 - 1) = N := by
        omega
      rw [this]
      omega

/-- Evaluation of `rd_to_weekday`: on the supported range (extended three
days past `RD_MAX`, reaching the Sunday that ends the last ISO week) the
multiply-shift computes the true weekday `(n + 3) mod 7 + 1`. -/
theorem rd_to_weekday_eval (n : Int) (h1 : -536895152 ≤ n) (h2 : n ≤ 536824298) :
    (rd_to_weekday n : Int) = (n + 3) % 7 + 1 := by
  unfold rd_to_weekday
  rw [RD_MIN_eq, P64_OVER_SEVEN_eq]
  rw [show (n - -536895152) % 18446744073709551616 = n + 536895152 from by omega]
  rw [Nat.shiftRight_eq_div_pow,
    show (2:Nat) ^ 61 = 2305843009213693952 from by norm_num]
  rw [magic7_64 ((n + 536895152).toNat + 1) (by omega) (by omega)]
  omega

/-- The `u32` pipeline of `date_to_weekday` before the multiply-shift,
with the year already a natural number, collapses to the exact sum. -/
theorem date_to_weekday_core (yn jf m d : Nat)
    (hyn1 : 1 ≤ yn) (hyn2 : yn ≤ 2939744) (hjf : jf ≤ 1)
    (hm : 3 ≤ m + 12 * jf) (hm14 : m + 12 * jf ≤ 14) (hd2 : d ≤ 31) :
    (((5 * ((yn + 4294967296 - jf) % 4294967296) % 4294967296 / 4 + 4294967296 -
        (yn + 4294967296 - jf) % 4294967296 / 100) % 4294967296 +
        (yn + 4294967296 - jf) % 4294967296 / 100 / 4) % 4294967296 +
      (979 * (m + 12 * jf) - 2855) / 32 + d) % 4294967296
    = 5 * (yn - jf) / 4 - (yn - jf) / 100 + (yn - jf) / 100 / 4
      + (979 * (m + 12 * jf) - 2855) / 32 + d := by
  have e1 : (yn + 4294967296 - jf) % 4294967296 = yn - jf := by omega
  rw [e1]
  have e2 : 5 * (yn - jf) % 4294967296 = 5 * (yn - jf) := by omega
  rw [e2]
  have hq5 : 5 * (yn - jf) / 4 ≤ 3674680 := by omega
  have hcq : (yn - jf) / 100 ≤ 5 * (yn - jf) / 4 := by omega
  have e3 : (5 * (yn - jf) / 4 + 4294967296 - (yn - jf) / 100) % 4294967296
      = 5 * (yn - jf) / 4 - (yn - jf) / 100 := by omega
  rw [e3]
  have e4 : (5 * (yn - jf) / 4 - (yn - jf) / 100 + (yn - jf) / 100 / 4) % 4294967296
      = 5 * (yn - jf) / 4 - (yn - jf) / 100 + (yn - jf) / 100 / 4 := by omega
  rw [e4]
  have hmw : (979 * (m + 12 * jf) - 2855) / 32 ≤ 339 := by omega
  omega

/-- Evaluation of `date_to_weekday` on an in-range date through the
32-bit reciprocal-of-7 trick. -/
theorem date_to_weekday_eval (y : Int) (m d : Nat)
    (hy1 : YEAR_MIN ≤ y) (hy2 : y ≤ YEAR_MAX) (hm1 : 1 ≤ m) (hm2 : m ≤ 12)
    (hd1 : 1 ≤ d) (hd2 : d ≤ 31) :
    date_to_weekday (y, m, d)
      = (5 * ((y + 1468000).toNat - (if m < 3 then 1 else 0)) / 4
          - ((y + 1468000).toNat - (if m < 3 then 1 else 0)) / 100
          + ((y + 1468000).toNat - (if m < 3 then 1 else 0)) / 100 / 4
          + (979 * (m + 12 * (if m < 3 then 1 else 0)) - 2855) / 32 + d - 1) % 7
        + 1 := by
  rw [show YEAR_MIN = -1467999 from rfl] at hy1
  rw [show YEAR_MAX = 1471744 from rfl] at hy2
  have ht : ((y + 1468000) % 4294967296).toNat = (y + 1468000).toNat := by omega
  have hb1 : 1 ≤ (y + 1468000).toNat := by omega
  have hb2 : (y + 1468000).toNat ≤ 2939744 := by omega
  simp only [date_to_weekday, date_to_internal, YEAR_OFFSET_eq, P32_OVER_SEVEN_eq, ht]
  by_cases hm3 : m < 3 <;> simp only [hm3, if_true, if_false]
  · rw [date_to_weekday_core _ 1 m d hb1 hb2 (by omega) (by omega) (by omega) hd2]
    rw [Nat.shiftRight_eq_div_pow, show (2:Nat) ^ 29 = 536870912 from by norm_num]
    rw [magic7_32 _ (by omega) (by
      have hq5 : 5 * ((y + 1468000).toNat - 1) / 4 ≤ 3674680 := by omega
      have hmw : (979 * (m + 12 * 1) - 2855) / 32 ≤ 339 := by omega
      omega)]
  · rw [date_to_weekday_core _ 0 m d hb1 hb2 (by omega) (by omega) (by omega) hd2]
    rw [Nat.shiftRight_eq_div_pow, show (2:Nat) ^ 29 = 536870912 from by norm_num]
    rw [magic7_32 _ (by omega) (by
      have hq5 : 5 * ((y + 1468000).toNat - 0) / 4 ≤ 3674680 := by omega
      have hmw : (979 * (m + 12 * 0) - 2855) / 32 ≤ 339 := by omega
      omega)]

/-- Reference month-length table, written from the specification text:
31 days for months 1,3,5,7,8,10,12; 30 for 4,6,9,11; February has 29
exactly in years satisfying the standard Gregorian leap rule. -/
def days_in_month_ref (y : Int) (m : Nat) : Nat :=
  if m = 2 then (if y % 4 = 0 ∧ (y % 100 ≠ 0 ∨ y % 400 = 0) then 29 else 28)
  else if m = 4 ∨ m = 6 ∨ m = 9 ∨ m = 11 then 30 else 31

/-- C1: the codec is a bijection over the supported range: both
compositions of `rd_to_date` and `date_to_rd` are the identity, on
`[RD_MIN, RD_MAX]` and on valid Gregorian dates respectively. -/
theorem claim1_codec_roundtrip :
    (∀ n : Int, RD_MIN ≤ n → n ≤ RD_MAX → date_to_rd (rd_to_date n) = n) ∧
    (∀ (y : Int) (m d : Nat), ValidDate y m d →
      rd_to_date (date_to_rd (y, m, d)) = (y, m, d)) := by
  constructor
  · intro n hn1 hn2
    rw [RD_MIN_eq] at hn1
    rw [RD_MAX_eq] at hn2
    exact (rd_to_date_spec n hn1 hn2).2
  · intro y m d h
    exact (date_to_rd_spec y m d h).2

/-- Witness for C1 at a concrete day number and date. -/
theorem claim1_codec_roundtrip_witness :
    date_to_rd (rd_to_date 19489) = 19489 ∧
    rd_to_date (date_to_rd (2023, 5, 12)) = (2023, 5, 12) :=
  ⟨claim1_codec_roundtrip.1 19489 (by decide) (by decide),
   claim1_codec_roundtrip.2 2023 5 12 (by unfold ValidDate; decide)⟩

/-- Agreement of the two weekday formulas on every valid date (helper). -/
theorem weekday_agree :
    ∀ (y : Int) (m d : Nat), ValidDate y m d →
      date_to_weekday (y, m, d) = rd_to_weekday (date_to_rd (y, m, d)) := by
  intro y m d h
  have hb := (date_to_rd_spec y m d h).1
  obtain ⟨hy1, hy2, hm1, hm2, hd1, hd2⟩ := h
  have hd31 : d ≤ 31 := le_trans hd2 (days_in_month_bounds y m hm1 hm2).2
  have hdw := date_to_weekday_eval y m d hy1 hy2 hm1 hm2 hd1 hd31
  have hrd := date_to_rd_eval y m d hy1 hy2 hm1 hm2 hd1 hd31
  have hwk := rd_to_weekday_eval (date_to_rd (y, m, d)) (by omega) (by omega)
  rw [show YEAR_MIN = -1467999 from rfl] at hy1
  rw [show YEAR_MAX = 1471744 from rfl] at hy2
  rw [hdw]
  by_cases hm3 : m < 3 <;> simp only [hm3, if_true, if_false] at hrd ⊢
  · have hydc : ydc ((y + 1468000).toNat - 1)
        = 1461 * ((y + 1468000).toNat - 1) / 4 - ((y + 1468000).toNat - 1) / 100
          + ((y + 1468000).toNat - 1) / 100 / 4 := rfl
    have hds : 1461 * ((y + 1468000).toNat - 1) / 4
        = 364 * ((y + 1468000).toNat - 1) + 5 * ((y + 1468000).toNat - 1) / 4 := by
      omega
    have hmw : (979 * (m + 12 * 1) - 2855) / 32
        = (979 * (m + 12 * 1) - 2919) / 32 + 2 := by omega
    have hdiff : date_to_rd (y, m, d) + 3
        - ((5 * ((y + 1468000).toNat - 1) / 4 - ((y + 1468000).toNat - 1) / 100
            + ((y + 1468000).toNat - 1) / 100 / 4
            + (979 * (m + 12 * 1) - 2855) / 32 + d - 1 : Nat) : Int)
        = 7 * (52 * (((y + 1468000).toNat - 1 : Nat) : Int) - 76699351) := by
      omega
    omega
  · have hydc : ydc ((y + 1468000).toNat - 0)
        = 1461 * ((y + 1468000).toNat - 0) / 4 - ((y + 1468000).toNat - 0) / 100
          + ((y + 1468000).toNat - 0) / 100 / 4 := rfl
    have hds : 1461 * ((y + 1468000).toNat - 0) / 4
        = 364 * ((y + 1468000).toNat - 0) + 5 * ((y + 1468000).toNat - 0) / 4 := by
      omega
    have hmw : (979 * (m + 12 * 0) - 2855) / 32
        = (979 * (m + 12 * 0) - 2919) / 32 + 2 := by omega
    have hdiff : date_to_rd (y, m, d) + 3
        - ((5 * ((y + 1468000).toNat - 0) / 4 - ((y + 1468000).toNat - 0) / 100
            + ((y + 1468000).toNat - 0) / 100 / 4
            + (979 * (m + 12 * 0) - 2855) / 32 + d - 1 : Nat) : Int)
        = 7 * (52 * (((y + 1468000).toNat - 0 : Nat) : Int) - 76699351) := by
      omega
    omega

/-- C2: the two independent weekday formulas agree on every valid date. -/
theorem claim2_weekday_agreement :
    ∀ (y : Int) (m d : Nat), ValidDate y m d →
      date_to_weekday (y, m, d) = rd_to_weekday (date_to_rd (y, m, d)) :=
  weekday_agree

/-- Witness for C2 at a concrete date. -/
theorem claim2_weekday_agreement_witness :
    date_to_weekday (2023, 5, 12) = rd_to_weekday (date_to_rd (2023, 5, 12)) :=
  claim2_weekday_agreement 2023 5 12 (by unfold ValidDate; decide)

/-- C3: the truncated-reciprocal weekday computation is exact on the whole
supported range: it computes `(n + 3) mod 7 + 1` (mathematical, always
non-negative modulus), and in particular day 0 is a Thursday. -/
theorem claim3_weekday_exact :
    (∀ n : Int, RD_MIN ≤ n → n ≤ RD_MAX →
      (rd_to_weekday n : Int) = (n + 3) % 7 + 1) ∧
    rd_to_weekday 0 = 4 := by
  constructor
  · intro n hn1 hn2
    rw [RD_MIN_eq] at hn1
    rw [RD_MAX_eq] at hn2
    exact rd_to_weekday_eval n hn1 (by omega)
  · decide

/-- Witness for C3 at a concrete day number. -/
theorem claim3_weekday_exact_witness :
    (rd_to_weekday 19489 : Int) = (19489 + 3) % 7 + 1 :=
  claim3_weekday_exact.1 19489 (by decide) (by decide)

/-- C7: the bitmask leap-year test equals the standard Gregorian rule and
the XOR month-length trick equals the reference table. -/
theorem claim7_leap_and_month_length :
    ∀ y : Int, YEAR_MIN ≤ y → y ≤ YEAR_MAX →
      (is_leap_year y = true ↔ (4 ∣ y ∧ (¬(100 ∣ y) ∨ 400 ∣ y))) ∧
      (∀ m : Nat, 1 ≤ m → m ≤ 12 → days_in_month y m = days_in_month_ref y m) := by
  intro y _ _
  refine ⟨is_leap_year_iff_dvd y, ?_⟩
  intro m hm1 hm2
  rw [days_in_month_cases y m hm1 hm2]
  unfold days_in_month_ref
  by_cases hm2e : m = 2
  · rw [if_pos hm2e, if_pos hm2e]
    by_cases hc : y % 4 = 0 ∧ (y % 100 ≠ 0 ∨ y % 400 = 0)
    · rw [if_pos hc, if_pos (by
        rw [is_leap_year_iff_dvd y]
        omega)]
    · rw [if_neg hc, if_neg (by
        rw [is_leap_year_iff_dvd y]
        omega)]
  · rw [if_neg hm2e, if_neg hm2e]

/-- Witness for C7 at a concrete year and month. -/
theorem claim7_leap_and_month_length_witness :
    (is_leap_year 2024 = true ↔ (4 ∣ (2024:Int) ∧ (¬(100 ∣ (2024:Int)) ∨ 400 ∣ (2024:Int)))) ∧
    days_in_month 2024 2 = days_in_month_ref 2024 2 := by
  have h := claim7_leap_and_month_length 2024 (by decide) (by decide)
  exact ⟨h.1, h.2 2 (by decide) (by decide)⟩

/-- C10: in release builds, an out-of-range day count makes
`dhms_to_secs` return the fixed fallback value 0 whatever the time of
day is. -/
theorem claim10_dhms_out_of_range :
    ∀ (d : Int) (h m s : Nat), (d < RD_MIN ∨ RD_MAX < d) →
      dhms_to_secs (d, h, m, s) = 0 := by
  intro d h m s hcon
  simp only [dhms_to_secs]
  rw [if_neg]
  intro hin
  rcases hcon with hlt | hgt
  · exact absurd hin.1 (by omega)
  · exact absurd hin.2 (by omega)

/-- Witness for C10 just past `RD_MAX`. -/
theorem claim10_dhms_out_of_range_witness :
    dhms_to_secs (536824296, 23, 59, 59) = 0 :=
  claim10_dhms_out_of_range 536824296 23 59 59 (Or.inr (by decide))

/-- Evaluation of `secs_to_dhms` on the supported range: the `u64`
arithmetic and the two reciprocal-of-60 multiply-shifts collapse to the
plain division chain. -/
theorem secs_to_dhms_eval (s : Int)
    (h1 : -46387741132800 ≤ s) (h2 : s ≤ 46381619174399) :
    secs_to_dhms s
      = ((((s + 46387767571200).toNat / 86400 : Nat) : Int) - 536895458,
         (s + 46387767571200).toNat % 86400 / 60 / 60,
         (s + 46387767571200).toNat % 86400 / 60 % 60,
         (s + 46387767571200).toNat % 86400 % 60) := by
  simp only [secs_to_dhms, SECS_OFFSET_eq, RD_SECONDS_MAX_eq]
  rw [if_neg (by omega : ¬ (46381619174399 < s))]
  rw [show ((s + 46387767571200) % 18446744073709551616).toNat
      = (s + 46387767571200).toNat from by omega]
  have hsu : (s + 46387767571200).toNat ≤ 92769386745599 := by omega
  rw [show (s + 46387767571200).toNat / 86400 % 4294967296
      = (s + 46387767571200).toNat / 86400 from by omega]
  have hs2 : (s + 46387767571200).toNat % 86400 < 86400 := by omega
  obtain ⟨g1, g2⟩ := magic60 ((s + 46387767571200).toNat % 86400 / 60)
    ((s + 46387767571200).toNat % 86400 % 60) (by omega) (by omega)
  rw [Nat.div_add_mod] at g1 g2
  rw [show 71582789 * ((s + 46387767571200).toNat % 86400) % 18446744073709551616
      = 71582789 * ((s + 46387767571200).toNat % 86400) from by omega]
  have hm1 : (71582789 * ((s + 46387767571200).toNat % 86400)) >>> 32
      = (s + 46387767571200).toNat % 86400 / 60 := by
    rw [Nat.shiftRight_eq_div_pow, show (2:Nat) ^ 32 = 4294967296 from by norm_num]
    exact g1
  rw [hm1, g2]
  have hmins : (s + 46387767571200).toNat % 86400 / 60 < 1440 := by omega
  obtain ⟨g3, g4⟩ := magic60 ((s + 46387767571200).toNat % 86400 / 60 / 60)
    ((s + 46387767571200).toNat % 86400 / 60 % 60) (by omega) (by omega)
  rw [Nat.div_add_mod] at g3 g4
  rw [show 71582789 * ((s + 46387767571200).toNat % 86400 / 60)
        % 18446744073709551616
      = 71582789 * ((s + 46387767571200).toNat % 86400 / 60) from by omega]
  have hm2 : (71582789 * ((s + 46387767571200).toNat % 86400 / 60)) >>> 32
      = (s + 46387767571200).toNat % 86400 / 60 / 60 := by
    rw [Nat.shiftRight_eq_div_pow, show (2:Nat) ^ 32 = 4294967296 from by norm_num]
    exact g3
  rw [hm2, g4]
  rw [u32_as_i32_small _ (by omega), DAY_OFFSET_eq]

/-- C4: the seconds round-trip holds on the whole supported range, with
the day rounding toward minus infinity for negative inputs, as in the
documented example `secs_to_dhms (-1) = (-1, 23, 59, 59)`. -/
theorem claim4_seconds_roundtrip :
    (∀ s : Int, RD_SECONDS_MIN ≤ s → s ≤ RD_SECONDS_MAX →
      dhms_to_secs (secs_to_dhms s) = s) ∧
    secs_to_dhms (-1) = (-1, 23, 59, 59) := by
  constructor
  · intro s h1 h2
    rw [RD_SECONDS_MIN_eq] at h1
    rw [RD_SECONDS_MAX_eq] at h2
    rw [secs_to_dhms_eval s h1 h2]
    simp only [dhms_to_secs]
    rw [if_pos (by
      rw [RD_MIN_eq, RD_MAX_eq]
      constructor <;> omega)]
    omega
  · decide

/-- Witness for C4 one second before the epoch. -/
theorem claim4_seconds_roundtrip_witness :
    dhms_to_secs (secs_to_dhms (-1)) = -1 :=
  claim4_seconds_roundtrip.1 (-1) (by decide) (by decide)

/-- January 1st is always a valid date for an in-range year. -/
theorem valid_jan1 (y : Int) (h1 : YEAR_MIN ≤ y) (h2 : y ≤ YEAR_MAX) :
    ValidDate y 1 1 := by
  refine ⟨h1, h2, le_refl 1, by norm_num, le_refl 1, ?_⟩
  have hdm : days_in_month y 1 = 31 := by
    unfold days_in_month
    rw [if_pos (by norm_num : (1:Nat) ≠ 2)]
    decide
  omega

/-- Day number of January 1st in closed form. -/
theorem jan1_eval (y : Int) (h1 : YEAR_MIN ≤ y) (h2 : y ≤ YEAR_MAX) :
    date_to_rd (y, 1, 1)
      = ((ydc ((y + 1468000).toNat - 1) + 306 : Nat) : Int) - 536895458 := by
  rw [date_to_rd_eval y 1 1 h1 h2 (le_refl 1) (by norm_num) (le_refl 1) (by norm_num)]
  norm_num

/-- Day number of January 4th in closed form. -/
theorem jan4_eval (y : Int) (h1 : YEAR_MIN ≤ y) (h2 : y ≤ YEAR_MAX) :
    date_to_rd (y, 1, 4)
      = ((ydc ((y + 1468000).toNat - 1) + 309 : Nat) : Int) - 536895458 := by
  rw [date_to_rd_eval y 1 4 h1 h2 (le_refl 1) (by norm_num) (by norm_num) (by norm_num)]
  norm_num
  omega

/-- Characterization of `isoweeks_in_year` through the true weekday of
January 1st. -/
theorem isoweeks_eval (y : Int) (h1 : YEAR_MIN ≤ y) (h2 : y ≤ YEAR_MAX) :
    isoweeks_in_year y =
      if (date_to_rd (y, 1, 1) + 3) % 7 + 1 = 4
         ∨ ((date_to_rd (y, 1, 1) + 3) % 7 + 1 = 3 ∧ is_leap_year y = true)
      then 53 else 52 := by
  have hvd := valid_jan1 y h1 h2
  have hb := (date_to_rd_spec y 1 1 hvd).1
  have hag := weekday_agree y 1 1 hvd
  have hwk := rd_to_weekday_eval (date_to_rd (y, 1, 1)) (by omega) (by omega)
  simp only [isoweeks_in_year]
  rw [hag]
  by_cases h4 : rd_to_weekday (date_to_rd (y, 1, 1)) = 4
  · rw [if_pos h4, if_pos (Or.inl (by omega))]
  · rw [if_neg h4]
    by_cases h3 : rd_to_weekday (date_to_rd (y, 1, 1)) = 3 ∧ is_leap_year y
    · rw [if_pos h3, if_pos (Or.inr ⟨by have := h3.1; omega, h3.2⟩)]
    · rw [if_neg h3, if_neg ?_]
      intro hcon
      rcases hcon with hA | ⟨hB, hl⟩
      · exact h4 (by omega)
      · exact h3 ⟨by omega, hl⟩

/-- C6: a year has 53 ISO weeks exactly when January 1st falls on a
Thursday, or on a Wednesday of a leap year (weekday taken as the true
`(rd + 3) mod 7 + 1` and leapness as the standard divisibility rule);
every other year has 52, and in particular 2026 has 53 and 2023 has 52. -/
theorem claim6_isoweeks_rule :
    (∀ y : Int, YEAR_MIN ≤ y → y ≤ YEAR_MAX →
      ((isoweeks_in_year y = 53 ↔
        ((date_to_rd (y, 1, 1) + 3) % 7 + 1 = 4 ∨
         ((date_to_rd (y, 1, 1) + 3) % 7 + 1 = 3 ∧
          (4 ∣ y ∧ (¬(100 ∣ y) ∨ 400 ∣ y))))) ∧
       (isoweeks_in_year y = 52 ∨ isoweeks_in_year y = 53))) ∧
    isoweeks_in_year 2026 = 53 ∧ isoweeks_in_year 2023 = 52 := by
  refine ⟨?_, by decide, by decide⟩
  intro y h1 h2
  rw [isoweeks_eval y h1 h2]
  have hld := is_leap_year_iff_dvd y
  constructor
  · by_cases hc : (date_to_rd (y, 1, 1) + 3) % 7 + 1 = 4
        ∨ ((date_to_rd (y, 1, 1) + 3) % 7 + 1 = 3 ∧ is_leap_year y = true)
    · rw [if_pos hc]
      constructor
      · intro _
        rcases hc with h | ⟨ha, hb⟩
        · exact Or.inl h
        · exact Or.inr ⟨ha, hld.mp hb⟩
      · intro _
        rfl
    · rw [if_neg hc]
      constructor
      · intro h52
        exact absurd h52 (by norm_num)
      · intro hcon
        exfalso
        apply hc
        rcases hcon with h | ⟨ha, hb⟩
        · exact Or.inl h
        · exact Or.inr ⟨ha, hld.mpr hb⟩
  · by_cases hc : (date_to_rd (y, 1, 1) + 3) % 7 + 1 = 4
        ∨ ((date_to_rd (y, 1, 1) + 3) % 7 + 1 = 3 ∧ is_leap_year y = true)
    · rw [if_pos hc]
      exact Or.inr rfl
    · rw [if_neg hc]
      exact Or.inl rfl

/-- Witness for C6 at the year 2026. -/
theorem claim6_isoweeks_rule_witness :
    isoweeks_in_year 2026 = 53 ↔
      ((date_to_rd (2026, 1, 1) + 3) % 7 + 1 = 4 ∨
       ((date_to_rd (2026, 1, 1) + 3) % 7 + 1 = 3 ∧
        (4 ∣ (2026:Int) ∧ (¬(100 ∣ (2026:Int)) ∨ 400 ∣ (2026:Int))))) :=
  ((claim6_isoweeks_rule.1 2026 (by decide) (by decide)).1)

/-- C9: at the wall-clock boundary, `systemtime_to_secs` splits the
instant exactly: it returns the floor-division seconds and the
non-negative sub-second nanoseconds whenever the seconds lie within
`[RD_SECONDS_MIN, RD_SECONDS_MAX]`, and `none` otherwise.  The
hypothesis bounds the instant below by what any platform `SystemTime`
(whose `Duration` seconds fit `u64` and whose seconds-before-epoch fit
`i64`) can represent, which keeps the wrapping `u64` borrow increment
of the source exact. -/
theorem claim9_systemtime_boundary :
    ∀ st : Int, -9223372036854775808000000000 ≤ st →
      (systemtime_to_secs st
        = if RD_SECONDS_MIN ≤ st / 1000000000 ∧ st / 1000000000 ≤ RD_SECONDS_MAX
          then some (st / 1000000000, st % 1000000000) else none) ∧
      0 ≤ st % 1000000000 ∧ st % 1000000000 ≤ 999999999 ∧
      st / 1000000000 * 1000000000 + st % 1000000000 = st := by
  intro st hplat
  refine ⟨?_, by omega, by omega, by omega⟩
  simp only [systemtime_to_secs, RD_SECONDS_MAX_eq, RD_SECONDS_MIN_eq]
  by_cases hpos : 0 ≤ st
  · rw [if_pos hpos]
    by_cases hhi : (46381619174399 : Int).toNat < st.toNat / 1000000000
    · rw [if_pos hhi, if_neg (by omega)]
    · rw [if_neg hhi, if_pos (by omega)]
      rw [show ((st.toNat / 1000000000 : Nat) : Int) = st / 1000000000 from by omega]
      rw [show ((st.toNat % 1000000000 : Nat) : Int) = st % 1000000000 from by omega]
  · rw [if_neg hpos]
    by_cases hnn : 0 < (-st).toNat % 1000000000
    · simp only [if_pos hnn]
      rw [show ((-st).toNat / 1000000000 + 1) % 18446744073709551616
          = (-st).toNat / 1000000000 + 1 from by omega]
      by_cases hchk : (-(-46387741132800 : Int)).toNat < (-st).toNat / 1000000000 + 1
      · rw [if_pos hchk, if_neg (by omega)]
      · rw [if_neg hchk, if_pos (by omega)]
        rw [show -(((-st).toNat / 1000000000 + 1 : Nat) : Int) = st / 1000000000
            from by omega]
        rw [show ((1000000000 - (-st).toNat % 1000000000 : Nat) : Int)
            = st % 1000000000 from by omega]
    · simp only [if_neg hnn]
      by_cases hchk : (-(-46387741132800 : Int)).toNat < (-st).toNat / 1000000000
      · rw [if_pos hchk, if_neg (by omega)]
      · rw [if_neg hchk, if_pos (by omega)]
        rw [show -(((-st).toNat / 1000000000 : Nat) : Int) = st / 1000000000
            from by omega]
        rw [show (((-st).toNat % 1000000000 : Nat) : Int) = st % 1000000000
            from by omega]

/-- Witness for C9 one nanosecond before the epoch. -/
theorem claim9_systemtime_boundary_witness :
    systemtime_to_secs (-1)
      = (if RD_SECONDS_MIN ≤ (-1 : Int) / 1000000000
            ∧ (-1 : Int) / 1000000000 ≤ RD_SECONDS_MAX
         then some ((-1 : Int) / 1000000000, (-1 : Int) % 1000000000) else none) :=
  (claim9_systemtime_boundary (-1) (by decide)).1

/-- Per-year growth of `ydc`: one shifted year adds 365 days plus one
exactly when the shifted year ending is a leap year in the internal
(offset) numbering. -/
theorem ydc_step (A : Nat) :
    ydc (A + 1) = ydc A + 365 +
      (if (A + 1) % 4 = 0 ∧ ((A + 1) % 100 ≠ 0 ∨ (A + 1) % 400 = 0)
       then 1 else 0) := by
  have d1 := ydc_decomp (A / 100) (A % 100) (by omega)
  rw [show 100 * (A / 100) + A % 100 = A from by omega] at d1
  have d2 := ydc_decomp ((A + 1) / 100) ((A + 1) % 100) (by omega)
  rw [show 100 * ((A + 1) / 100) + (A + 1) % 100 = A + 1 from by omega] at d2
  by_cases hc : (A + 1) % 4 = 0 ∧ ((A + 1) % 100 ≠ 0 ∨ (A + 1) % 400 = 0)
  · rw [if_pos hc]
    omega
  · rw [if_neg hc]
    omega

/-- Growth of `ydc` over arbitrary distances. -/
theorem ydc_grow (A B : Nat) (h : A < B) : ydc A + 365 ≤ ydc B := by
  have d1 := ydc_decomp (A / 100) (A % 100) (by omega)
  rw [show 100 * (A / 100) + A % 100 = A from by omega] at d1
  have d2 := ydc_decomp (B / 100) (B % 100) (by omega)
  rw [show 100 * (B / 100) + B % 100 = B from by omega] at d2
  have hf : A / 100 ≤ B / 100 := Nat.div_le_div_right (le_of_lt h)
  have hg : A / 100 / 4 ≤ B / 100 / 4 := Nat.div_le_div_right hf
  have he24 : A % 100 / 4 ≤ 24 := by omega
  by_cases hcc : A / 100 = B / 100
  · have hq : A % 100 ≤ B % 100 := by omega
    have hi : A % 100 / 4 ≤ B % 100 / 4 := Nat.div_le_div_right hq
    omega
  · omega

/-- Finite check: the XOR month-length trick over the shifted months. -/
theorem xor_len : ∀ m < 13, 3 ≤ m →
    30 ||| (m ^^^ (m >>> 3))
      = if m = 4 ∨ m = 6 ∨ m = 9 ∨ m = 11 then 30 else 31 := by decide

/-- Stepping forward by one calendar day: `next_date` of a valid date
other than the maximum produces a valid date whose day number is one
larger (helper for C8). -/
theorem next_date_spec (y : Int) (m d : Nat) (h : ValidDate y m d)
    (hne : ¬(y = YEAR_MAX ∧ m = 12 ∧ d = 31)) :
    ValidDate (next_date (y, m, d)).1 (next_date (y, m, d)).2.1 (next_date (y, m, d)).2.2 ∧
      date_to_rd (next_date (y, m, d)) = date_to_rd (y, m, d) + 1 := by
  obtain ⟨hy1, hy2, hm1, hm2, hd1, hd3⟩ := h
  have hy1n : (-1467999 : Int) ≤ y := by
    rw [show YEAR_MIN = -1467999 from rfl] at hy1; exact hy1
  have hy2n : y ≤ 1471744 := by
    rw [show YEAR_MAX = 1471744 from rfl] at hy2; exact hy2
  have hb := days_in_month_bounds y m hm1 hm2
  simp only [next_date]
  by_cases hcond : d < 28 ∨ d < days_in_month y m
  · rw [if_pos hcond]
    refine ⟨show ValidDate y m (d + 1) from ⟨hy1, hy2, hm1, hm2, by omega, by omega⟩, ?_⟩
    rw [date_to_rd_eval y m (d + 1) hy1 hy2 hm1 hm2 (by omega) (by omega),
        date_to_rd_eval y m d hy1 hy2 hm1 hm2 hd1 (by omega)]
    omega
  · rw [if_neg hcond]
    have hd : d = days_in_month y m := by omega
    by_cases hm12 : m < 12
    · rw [if_pos hm12]
      have hb2 := days_in_month_bounds y (m + 1) (by omega) (by omega)
      refine ⟨show ValidDate y (m + 1) 1 from
        ⟨hy1, hy2, by omega, by omega, by omega, by omega⟩, ?_⟩
      rw [date_to_rd_eval y (m + 1) 1 hy1 hy2 (by omega) (by omega) (by omega) (by omega),
          date_to_rd_eval y m d hy1 hy2 hm1 hm2 hd1 (by omega)]
      by_cases hm2c : m = 2
      · subst hm2c
        simp only [show (if (2 : Nat) + 1 < 3 then (1 : Nat) else 0) = 0 from by decide,
          show (if (2 : Nat) < 3 then (1 : Nat) else 0) = 1 from by decide,
          Nat.mul_zero, Nat.mul_one, Nat.add_zero, Nat.sub_zero]
        have hdim2 : days_in_month y 2 = if is_leap_year y then 29 else 28 := by
          rw [days_in_month_cases y 2 (by omega) (by omega)]; norm_num
        have hyn : 1 ≤ (y + 1468000).toNat := by omega
        have hstep := ydc_step ((y + 1468000).toNat - 1)
        rw [show (y + 1468000).toNat - 1 + 1 = (y + 1468000).toNat from by omega] at hstep
        have hlp := is_leap_internal (y + 1468000).toNat
        rw [show ((y + 1468000).toNat : Int) - 1468000 = y from by omega] at hlp
        by_cases hL : is_leap_year y = true
        · have hd29 : d = 29 := by rw [hd, hdim2, if_pos hL]
          rw [if_pos (hlp.mp hL)] at hstep
          omega
        · have hd28 : d = 28 := by rw [hd, hdim2, if_neg hL]
          rw [if_neg (fun hc => hL (hlp.mpr hc))] at hstep
          omega
      · by_cases hm1c : m = 1
        · subst hm1c
          simp only [show (if (1 : Nat) + 1 < 3 then (1 : Nat) else 0) = 1 from by decide,
            show (if (1 : Nat) < 3 then (1 : Nat) else 0) = 1 from by decide,
            Nat.mul_one]
          have hdm1 : days_in_month y 1 = 31 := by
            rw [days_in_month_cases y 1 (by omega) (by omega)]; norm_num
          have hd31 : d = 31 := hd.trans hdm1
          omega
        · have hm3' : 3 ≤ m := by omega
          have hdmx : days_in_month y m
              = if m = 4 ∨ m = 6 ∨ m = 9 ∨ m = 11 then 30 else 31 := by
            rw [days_in_month_cases y m hm1 hm2, if_neg (by omega : ¬ m = 2)]
          rw [hd, hdmx]
          simp only [if_neg (show ¬ m < 3 from by omega),
            if_neg (show ¬ m + 1 < 3 from by omega),
            Nat.mul_zero, Nat.add_zero, Nat.sub_zero]
          by_cases h30 : m = 4 ∨ m = 6 ∨ m = 9 ∨ m = 11
          · rw [if_pos h30]
            rcases h30 with h | h | h | h <;> subst h <;> omega
          · rw [if_neg h30]
            have h5 : m = 3 ∨ m = 5 ∨ m = 7 ∨ m = 8 ∨ m = 10 := by omega
            rcases h5 with h | h | h | h | h <;> subst h <;> omega
    · rw [if_neg hm12]
      have hm12e : m = 12 := by omega
      subst hm12e
      have hdm12 : days_in_month y 12 = 31 := by
        rw [days_in_month_cases y 12 (by omega) (by omega)]; norm_num
      have hd31 : d = 31 := hd.trans hdm12
      have hyne : y ≠ YEAR_MAX := fun hEq => hne ⟨hEq, rfl, hd31⟩
      have hy2n' : y + 1 ≤ 1471744 := by
        rw [show YEAR_MAX = 1471744 from rfl] at hyne
        omega
      have hy2' : y + 1 ≤ YEAR_MAX := by
        rw [show YEAR_MAX = 1471744 from rfl]; exact hy2n'
      have hy1' : YEAR_MIN ≤ y + 1 := le_trans hy1 (by omega)
      have hb1 := days_in_month_bounds (y + 1) 1 (by omega) (by omega)
      refine ⟨show ValidDate (y + 1) 1 1 from
        ⟨hy1', hy2', by omega, by omega, by omega, by omega⟩, ?_⟩
      rw [date_to_rd_eval (y + 1) 1 1 hy1' hy2' (by omega) (by omega) (by omega) (by omega),
          date_to_rd_eval y 12 d hy1 hy2 (by omega) (by omega) hd1 (by omega)]
      simp only [show (if (1 : Nat) < 3 then (1 : Nat) else 0) = 1 from by decide,
        show (if (12 : Nat) < 3 then (1 : Nat) else 0) = 0 from by decide,
        Nat.mul_one, Nat.mul_zero, Nat.add_zero, Nat.sub_zero]
      rw [show (y + 1 + 1468000).toNat - 1 = (y + 1468000).toNat from by omega]
      omega

/-- Stepping backward by one calendar day: `prev_date` of a valid date
other than the minimum produces a valid date whose day number is one
smaller (helper for C8). -/
theorem prev_date_spec (y : Int) (m d : Nat) (h : ValidDate y m d)
    (hne : ¬(y = YEAR_MIN ∧ m = 1 ∧ d = 1)) :
    ValidDate (prev_date (y, m, d)).1 (prev_date (y, m, d)).2.1 (prev_date (y, m, d)).2.2 ∧
      date_to_rd (prev_date (y, m, d)) = date_to_rd (y, m, d) - 1 := by
  obtain ⟨hy1, hy2, hm1, hm2, hd1, hd3⟩ := h
  have hy1n : (-1467999 : Int) ≤ y := by
    rw [show YEAR_MIN = -1467999 from rfl] at hy1; exact hy1
  have hy2n : y ≤ 1471744 := by
    rw [show YEAR_MAX = 1471744 from rfl] at hy2; exact hy2
  have hb := days_in_month_bounds y m hm1 hm2
  simp only [prev_date]
  by_cases hdc : 1 < d
  · rw [if_pos hdc]
    refine ⟨show ValidDate y m (d - 1) from ⟨hy1, hy2, hm1, hm2, by omega, by omega⟩, ?_⟩
    rw [date_to_rd_eval y m (d - 1) hy1 hy2 hm1 hm2 (by omega) (by omega),
        date_to_rd_eval y m d hy1 hy2 hm1 hm2 hd1 (by omega)]
    omega
  · rw [if_neg hdc]
    have hde : d = 1 := by omega
    subst hde
    by_cases hmc : 1 < m
    · rw [if_pos hmc]
      have hbp := days_in_month_bounds y (m - 1) (by omega) (by omega)
      refine ⟨show ValidDate y (m - 1) (days_in_month y (m - 1)) from
        ⟨hy1, hy2, by omega, by omega, by omega, le_refl _⟩, ?_⟩
      rw [date_to_rd_eval y (m - 1) (days_in_month y (m - 1)) hy1 hy2 (by omega) (by omega)
            (by omega) (by omega),
          date_to_rd_eval y m 1 hy1 hy2 hm1 hm2 (by omega) (by omega)]
      by_cases hm2c : m = 2
      · subst hm2c
        simp only [show (2 : Nat) - 1 = 1 from by decide,
          show (if (1 : Nat) < 3 then (1 : Nat) else 0) = 1 from by decide,
          show (if (2 : Nat) < 3 then (1 : Nat) else 0) = 1 from by decide,
          Nat.mul_one]
        have hdm1 : days_in_month y 1 = 31 := by
          rw [days_in_month_cases y 1 (by omega) (by omega)]; norm_num
        rw [hdm1]
        omega
      · by_cases hm3c : m = 3
        · subst hm3c
          simp only [show (3 : Nat) - 1 = 2 from by decide,
            show (if (2 : Nat) < 3 then (1 : Nat) else 0) = 1 from by decide,
            show (if (3 : Nat) < 3 then (1 : Nat) else 0) = 0 from by decide,
            Nat.mul_one, Nat.mul_zero, Nat.add_zero, Nat.sub_zero]
          have hdim2 : days_in_month y 2 = if is_leap_year y then 29 else 28 := by
            rw [days_in_month_cases y 2 (by omega) (by omega)]; norm_num
          have hyn : 1 ≤ (y + 1468000).toNat := by omega
          have hstep := ydc_step ((y + 1468000).toNat - 1)
          rw [show (y + 1468000).toNat - 1 + 1 = (y + 1468000).toNat from by omega] at hstep
          have hlp := is_leap_internal (y + 1468000).toNat
          rw [show ((y + 1468000).toNat : Int) - 1468000 = y from by omega] at hlp
          rw [hdim2]
          by_cases hL : is_leap_year y = true
          · rw [if_pos hL]
            rw [if_pos (hlp.mp hL)] at hstep
            omega
          · rw [if_neg hL]
            rw [if_neg (fun hc => hL (hlp.mpr hc))] at hstep
            omega
        · have hm4 : 4 ≤ m := by omega
          have hdmx : days_in_month y (m - 1)
              = if m - 1 = 4 ∨ m - 1 = 6 ∨ m - 1 = 9 ∨ m - 1 = 11 then 30 else 31 := by
            rw [days_in_month_cases y (m - 1) (by omega) (by omega),
              if_neg (by omega : ¬ m - 1 = 2)]
          rw [hdmx]
          simp only [if_neg (show ¬ m - 1 < 3 from by omega),
            if_neg (show ¬ m < 3 from by omega),
            Nat.mul_zero, Nat.add_zero, Nat.sub_zero]
          by_cases h30 : m - 1 = 4 ∨ m - 1 = 6 ∨ m - 1 = 9 ∨ m - 1 = 11
          · rw [if_pos h30]
            have h4 : m = 5 ∨ m = 7 ∨ m = 10 ∨ m = 12 := by omega
            rcases h4 with h | h | h | h <;> subst h <;> omega
          · rw [if_neg h30]
            have h5 : m = 4 ∨ m = 6 ∨ m = 8 ∨ m = 9 ∨ m = 11 := by omega
            rcases h5 with h | h | h | h | h <;> subst h <;> omega
    · rw [if_neg hmc]
      have hme : m = 1 := by omega
      subst hme
      have hyne : y ≠ YEAR_MIN := fun hEq => hne ⟨hEq, rfl, rfl⟩
      have hy1n' : (-1467999 : Int) ≤ y - 1 := by
        rw [show YEAR_MIN = -1467999 from rfl] at hyne
        omega
      have hy1' : YEAR_MIN ≤ y - 1 := by
        rw [show YEAR_MIN = -1467999 from rfl]; exact hy1n'
      have hy2' : y - 1 ≤ YEAR_MAX := le_trans (by omega) hy2
      have hdm12 : days_in_month (y - 1) 12 = 31 := by
        rw [days_in_month_cases (y - 1) 12 (by omega) (by omega)]; norm_num
      refine ⟨show ValidDate (y - 1) 12 31 from
        ⟨hy1', hy2', by omega, by omega, by omega, by omega⟩, ?_⟩
      rw [date_to_rd_eval (y - 1) 12 31 hy1' hy2' (by omega) (by omega) (by omega) (by omega),
          date_to_rd_eval y 1 1 hy1 hy2 (by omega) (by omega) (by omega) (by omega)]
      simp only [show (if (12 : Nat) < 3 then (1 : Nat) else 0) = 0 from by decide,
        show (if (1 : Nat) < 3 then (1 : Nat) else 0) = 1 from by decide,
        Nat.mul_one, Nat.mul_zero, Nat.add_zero, Nat.sub_zero]
      rw [show (y - 1 + 1468000).toNat = (y + 1468000).toNat - 1 from by omega]
      omega

/-- Truncating remainder by 7 is the identity on the open interval
`(-7, 7)`, matching Rust's `%` on small signed values. -/
theorem tmod_small (a : Int) (h1 : -7 < a) (h2 : a < 7) : a.tmod 7 = a := by
  rcases le_or_lt 0 a with h | h
  · exact Int.tmod_eq_of_lt h h2
  · have hd : (-a).tdiv 7 = 0 := Int.tdiv_eq_zero_of_lt (by omega) (by omega)
    have hneg := Int.neg_tdiv a 7
    have hz : a.tdiv 7 = 0 := by omega
    rw [Int.tmod_def, hz]
    omega

/-- January 1st advances by 365 days plus one after a leap year. -/
theorem jan1_step (y : Int) (h1 : YEAR_MIN ≤ y) (h2 : y + 1 ≤ YEAR_MAX) :
    date_to_rd (y + 1, 1, 1)
      = date_to_rd (y, 1, 1) + 365 + (if is_leap_year y = true then (1 : Int) else 0) := by
  have h2' : y ≤ YEAR_MAX := le_trans (by omega) h2
  rw [jan1_eval y h1 h2', jan1_eval (y + 1) (le_trans h1 (by omega)) h2]
  have hy1n : (-1467999 : Int) ≤ y := by
    rw [show YEAR_MIN = -1467999 from rfl] at h1; exact h1
  rw [show (y + 1 + 1468000).toNat - 1 = (y + 1468000).toNat from by omega]
  have hyn : 1 ≤ (y + 1468000).toNat := by omega
  have hstep := ydc_step ((y + 1468000).toNat - 1)
  rw [show (y + 1468000).toNat - 1 + 1 = (y + 1468000).toNat from by omega] at hstep
  have hlp := is_leap_internal (y + 1468000).toNat
  rw [show ((y + 1468000).toNat : Int) - 1468000 = y from by omega] at hlp
  by_cases hL : is_leap_year y = true
  · rw [if_pos hL]
    rw [if_pos (hlp.mp hL)] at hstep
    omega
  · rw [if_neg hL]
    rw [if_neg (fun hc => hL (hlp.mpr hc))] at hstep
    omega

/-- January 1st is strictly monotone in the year, by at least a full
common year. -/
theorem jan1_mono (a b : Int) (ha : YEAR_MIN ≤ a) (hab : a < b) (hb : b ≤ YEAR_MAX) :
    date_to_rd (a, 1, 1) + 365 ≤ date_to_rd (b, 1, 1) := by
  rw [jan1_eval a ha (by omega), jan1_eval b (by omega) hb]
  have ha' : (-1467999 : Int) ≤ a := by
    rw [show YEAR_MIN = -1467999 from rfl] at ha; exact ha
  have hg := ydc_grow ((a + 1468000).toNat - 1) ((b + 1468000).toNat - 1) (by omega)
  omega

/-- January 1st is monotone in the year. -/
theorem jan1_le (a b : Int) (ha : YEAR_MIN ≤ a) (hab : a ≤ b) (hb : b ≤ YEAR_MAX) :
    date_to_rd (a, 1, 1) ≤ date_to_rd (b, 1, 1) := by
  rcases eq_or_lt_of_le hab with h | h
  · rw [h]
  · have := jan1_mono a b ha h hb
    omega

/-- Any valid date of year `y` has a day number inside the year's
interval starting at January 1st. -/
theorem date_rd_in_year (y : Int) (m d : Nat) (h : ValidDate y m d) :
    date_to_rd (y, 1, 1) ≤ date_to_rd (y, m, d) ∧
      date_to_rd (y, m, d)
        ≤ date_to_rd (y, 1, 1) + 364 + (if is_leap_year y = true then (1 : Int) else 0) := by
  obtain ⟨hy1, hy2, hm1, hm2, hd1, hd3⟩ := h
  have hb := days_in_month_bounds y m hm1 hm2
  have hy1n : (-1467999 : Int) ≤ y := by
    rw [show YEAR_MIN = -1467999 from rfl] at hy1; exact hy1
  rw [jan1_eval y hy1 hy2, date_to_rd_eval y m d hy1 hy2 hm1 hm2 hd1 (by omega)]
  have hyn : 1 ≤ (y + 1468000).toNat := by omega
  have hstep := ydc_step ((y + 1468000).toNat - 1)
  rw [show (y + 1468000).toNat - 1 + 1 = (y + 1468000).toNat from by omega] at hstep
  have hlp := is_leap_internal (y + 1468000).toNat
  rw [show ((y + 1468000).toNat : Int) - 1468000 = y from by omega] at hlp
  by_cases hm3 : m < 3
  · simp only [if_pos hm3, Nat.mul_one]
    by_cases hL : is_leap_year y = true
    · rw [if_pos hL]
      omega
    · rw [if_neg hL]
      omega
  · simp only [if_neg hm3, Nat.mul_zero, Nat.add_zero, Nat.sub_zero]
    by_cases hL : is_leap_year y = true
    · rw [if_pos hL]
      rw [if_pos (hlp.mp hL)] at hstep
      omega
    · rw [if_neg hL]
      rw [if_neg (fun hc => hL (hlp.mpr hc))] at hstep
      omega

/-- Uniqueness of the year: a day number inside year `y`'s interval is
decoded by `rd_to_date` with year component exactly `y`. -/
theorem rd_year_eq (y n : Int) (hy1 : YEAR_MIN ≤ y) (hy2 : y ≤ YEAR_MAX)
    (hn1 : -536895152 ≤ n) (hn2 : n ≤ 536824295)
    (hl : date_to_rd (y, 1, 1) ≤ n)
    (hu : n ≤ date_to_rd (y, 1, 1) + 364
      + (if is_leap_year y = true then (1 : Int) else 0)) :
    (rd_to_date n).1 = y := by
  obtain ⟨hval, hround⟩ := rd_to_date_spec n hn1 hn2
  rcases hE : rd_to_date n with ⟨Y, M, D⟩
  rw [hE] at hval hround
  clear hE
  have hval' : ValidDate Y M D := hval
  clear hval
  have hin := date_rd_in_year Y M D hval'
  rw [hround] at hin
  clear hround
  obtain ⟨hY1, hY2, h3, h4, h5, h6⟩ := hval'
  clear h3 h4 h5 h6
  show Y = y
  rcases lt_trichotomy Y y with hlt | heq | hgt
  · exfalso
    have hs1 : date_to_rd (Y + 1, 1, 1)
        = date_to_rd (Y, 1, 1) + 365
          + (if is_leap_year Y = true then (1 : Int) else 0) :=
      jan1_step Y hY1 (by omega)
    have hs2 : date_to_rd (Y + 1, 1, 1) ≤ date_to_rd (y, 1, 1) :=
      jan1_le _ _ (by omega) (by omega) hy2
    omega
  · exact heq
  · exfalso
    have hs1 : date_to_rd (y + 1, 1, 1)
        = date_to_rd (y, 1, 1) + 365 + (if is_leap_year y = true then (1 : Int) else 0) :=
      jan1_step y hy1 (by omega)
    have hs2 : date_to_rd (y + 1, 1, 1) ≤ date_to_rd (Y, 1, 1) :=
      jan1_le _ _ (by omega) (by omega) hY2
    omega

/-- Evaluation of `isoweekdate_to_rd` through the day number of
January 1st: the base is the Monday of the week containing January 4th. -/
theorem isoweekdate_to_rd_eval (y : Int) (w d : Nat)
    (h1 : YEAR_MIN ≤ y) (h2 : y ≤ YEAR_MAX) :
    isoweekdate_to_rd (y, w, d)
      = date_to_rd (y, 1, 1) + 3 - (date_to_rd (y, 1, 1) + 6) % 7
        + ((w : Int) - 1) * 7 + ((d : Int) - 1) := by
  simp only [isoweekdate_to_rd]
  have hb := (date_to_rd_spec y 1 1 (valid_jan1 y h1 h2)).1
  have hj1 := jan1_eval y h1 h2
  have hj4 := jan4_eval y h1 h2
  have h43 : date_to_rd (y, 1, 4) = date_to_rd (y, 1, 1) + 3 := by omega
  have hwd := rd_to_weekday_eval (date_to_rd (y, 1, 4)) (by omega) (by omega)
  have hmod : (rd_to_weekday (date_to_rd (y, 1, 4)) + 256 - 1) % 256
      = rd_to_weekday (date_to_rd (y, 1, 4)) - 1 := by omega
  rw [hmod]
  clear hb hj1 hj4 hmod h1 h2
  omega

/-- Bounds connecting `isoweeks_in_year` to the weekday of January 1st
(helper for C5). -/
theorem iso_ys_bounds (y : Int) (hy1 : YEAR_MIN ≤ y) (hy2 : y ≤ YEAR_MAX) :
    (isoweeks_in_year y = 52 ∨ isoweeks_in_year y = 53) ∧
      7 * (isoweeks_in_year y : Int)
        ≤ 365 + (if is_leap_year y = true then (1 : Int) else 0)
          + (date_to_rd (y, 1, 1) + 6) % 7 := by
  have hisow := isoweeks_eval y hy1 hy2
  have hLb : 0 ≤ (if is_leap_year y = true then (1 : Int) else 0)
      ∧ (if is_leap_year y = true then (1 : Int) else 0) ≤ 1 := by
    by_cases hL : is_leap_year y = true
    · rw [if_pos hL]; omega
    · rw [if_neg hL]; omega
  by_cases hc : (date_to_rd (y, 1, 1) + 3) % 7 + 1 = 4
      ∨ ((date_to_rd (y, 1, 1) + 3) % 7 + 1 = 3 ∧ is_leap_year y = true)
  · rw [if_pos hc] at hisow
    rcases hc with h4 | ⟨h3, hL⟩
    · rw [hisow]
      exact ⟨Or.inr rfl, by omega⟩
    · rw [hisow]
      refine ⟨Or.inr rfl, ?_⟩
      rw [if_pos hL]
      omega
  · rw [if_neg hc] at hisow
    rw [hisow]
    exact ⟨Or.inl rfl, by omega⟩

/-- The day-number direction of the ISO week round-trip (helper for C5). -/
theorem iso_rd_roundtrip (n : Int) (hn1 : -536895152 ≤ n) (hn2 : n ≤ 536824295) :
    isoweekdate_to_rd (rd_to_isoweekdate n) = n := by
  have hwd := rd_to_weekday_eval n hn1 (by omega)
  simp only [rd_to_isoweekdate]
  rw [tmod_small (4 - (rd_to_weekday n : Int)) (by omega) (by omega)]
  generalize hXdef : n + (4 - (rd_to_weekday n : Int)) = X
  have hX7 : X = n + 3 - (n + 3) % 7 := by omega
  have hXr1 : -536895152 ≤ X := by omega
  have hXr2 : X ≤ 536824295 := by omega
  obtain ⟨hval, hround⟩ := rd_to_date_spec X hXr1 hXr2
  rcases hE : rd_to_date X with ⟨Y, M, D⟩
  rw [hE] at hval hround
  clear hE
  have hval' : ValidDate Y M D := hval
  clear hval
  have hin := date_rd_in_year Y M D hval'
  rw [hround] at hin
  clear hround
  obtain ⟨hY1, hY2, h3, h4, h5, h6⟩ := hval'
  clear h3 h4 h5 h6
  show isoweekdate_to_rd (Y, (((X - date_to_rd (Y, 1, 1)).tdiv 7 + 1) % 256).toNat,
      rd_to_weekday n) = n
  rw [isoweekdate_to_rd_eval Y _ _ hY1 hY2]
  have htd := Int.tdiv_add_tmod (X - date_to_rd (Y, 1, 1)) 7
  have htm1 := Int.tmod_nonneg 7 (show (0:Int) ≤ X - date_to_rd (Y, 1, 1) from by omega)
  have htm2 := Int.tmod_lt_of_pos (X - date_to_rd (Y, 1, 1)) (show (0:Int) < 7 from by omega)
  have hLb : 0 ≤ (if is_leap_year Y = true then (1 : Int) else 0)
      ∧ (if is_leap_year Y = true then (1 : Int) else 0) ≤ 1 := by
    by_cases hL : is_leap_year Y = true
    · rw [if_pos hL]; omega
    · rw [if_neg hL]; omega
  clear hY1 hY2 hXdef
  omega

/-- The date direction of the ISO week round-trip (helper for C5). -/
theorem iso_date_roundtrip (y : Int) (w d : Nat)
    (hy1 : YEAR_MIN ≤ y) (hy2 : y ≤ YEAR_MAX)
    (hw1 : 1 ≤ w) (hw2 : w ≤ isoweeks_in_year y) (hd1 : 1 ≤ d) (hd7 : d ≤ 7) :
    rd_to_isoweekdate (isoweekdate_to_rd (y, w, d)) = (y, w, d) := by
  have hSb := (date_to_rd_spec y 1 1 (valid_jan1 y hy1 hy2)).1
  obtain ⟨hiso52, hisob⟩ := iso_ys_bounds y hy1 hy2
  have hLb : 0 ≤ (if is_leap_year y = true then (1 : Int) else 0)
      ∧ (if is_leap_year y = true then (1 : Int) else 0) ≤ 1 := by
    by_cases hL : is_leap_year y = true
    · rw [if_pos hL]; omega
    · rw [if_neg hL]; omega
  have hSlo : -536895152 ≤ date_to_rd (y, 1, 1) + 3 - (date_to_rd (y, 1, 1) + 6) % 7 := by
    rcases eq_or_lt_of_le hy1 with hmin | hmin
    · rw [← hmin]
      rw [show date_to_rd (YEAR_MIN, 1, 1) = -536895152 from by decide]
      omega
    · have hmono := jan1_mono YEAR_MIN y (le_refl _) hmin hy2
      rw [show date_to_rd (YEAR_MIN, 1, 1) = -536895152 from by decide] at hmono
      clear * - hmono
      omega
  have hShi : date_to_rd (y, 1, 1) + 3 - (date_to_rd (y, 1, 1) + 6) % 7
      + 7 * (isoweeks_in_year y : Int) ≤ 536824299 := by
    rcases eq_or_lt_of_le hy2 with hmax | hmax
    · rw [hmax]
      rw [show date_to_rd (YEAR_MAX, 1, 1) = 536823930 from by decide,
        show isoweeks_in_year YEAR_MAX = 53 from by decide]
      omega
    · have hstep := jan1_step y hy1 (by omega)
      have hle := jan1_le (y + 1) YEAR_MAX (by omega) (by omega) (le_refl _)
      rw [show date_to_rd (YEAR_MAX, 1, 1) = 536823930 from by decide] at hle
      clear * - hstep hle hisob hLb
      omega
  have hr0 := isoweekdate_to_rd_eval y w d hy1 hy2
  have hy1n : (-1467999 : Int) ≤ y := by
    rw [show YEAR_MIN = -1467999 from rfl] at hy1; exact hy1
  have hy2n : y ≤ 1471744 := by
    rw [show YEAR_MAX = 1471744 from rfl] at hy2; exact hy2
  clear hy1 hy2
  obtain ⟨W, hWdef⟩ : ∃ W : Nat, isoweeks_in_year y = W := ⟨_, rfl⟩
  rw [hWdef] at hw2 hisob hShi hiso52
  clear hWdef
  generalize hE : isoweekdate_to_rd (y, w, d) = r
  rw [hE] at hr0
  clear hE
  have hwd := rd_to_weekday_eval r (by clear * - hr0 hSlo hw1 hd1; omega)
    (by clear * - hr0 hShi hw2 hd7; omega)
  have hwdd : (rd_to_weekday r : Int) = (d : Int) := by
    clear * - hwd hr0 hd1 hd7
    omega
  simp only [rd_to_isoweekdate]
  rw [tmod_small (4 - (rd_to_weekday r : Int)) (by clear * - hwdd hd1 hd7; omega)
    (by clear * - hwdd hd1 hd7; omega)]
  generalize hWDdef : rd_to_weekday r = WD
  rw [hWDdef] at hwd hwdd
  clear hWDdef hwd
  generalize hXdef : r + (4 - (WD : Int)) = X
  have hX : X = date_to_rd (y, 1, 1) + 3 - (date_to_rd (y, 1, 1) + 6) % 7
      + 7 * ((w : Int) - 1) + 3 := by
    clear * - hXdef hwdd hr0
    omega
  clear hXdef
  have hXb1 : -536895152 ≤ X := by clear * - hX hSlo hw1; omega
  have hXb2 : X ≤ 536824295 := by clear * - hX hShi hw2; omega
  have hXb3 : date_to_rd (y, 1, 1) ≤ X := by clear * - hX hw1; omega
  have hXb4 : X ≤ date_to_rd (y, 1, 1) + 364
      + (if is_leap_year y = true then (1 : Int) else 0) := by
    clear * - hX hisob hw2 hLb
    omega
  have hYq : (rd_to_date X).1 = y := by
    refine rd_year_eq y X ?_ ?_ hXb1 hXb2 hXb3 hXb4
    · rw [show YEAR_MIN = -1467999 from rfl]; exact hy1n
    · rw [show YEAR_MAX = 1471744 from rfl]; exact hy2n
  rw [hYq]
  clear hYq
  have htm0 : (0:Int) ≤ X - date_to_rd (y, 1, 1) := by clear * - hXb3; omega
  have htd := Int.tdiv_add_tmod (X - date_to_rd (y, 1, 1)) 7
  have htm1 := Int.tmod_nonneg 7 htm0
  have htm2 := Int.tmod_lt_of_pos (X - date_to_rd (y, 1, 1)) (show (0:Int) < 7 from by norm_num)
  simp only [Prod.mk.injEq]
  refine ⟨trivial, ?_, ?_⟩
  · clear * - htd htm1 htm2 hX hw1 hw2 hiso52
    omega
  · clear * - hwdd
    omega

/-- C5: the ISO week-date codec round-trips in both directions over the
supported range: every day number in `[RD_MIN, RD_MAX]` survives
`rd_to_isoweekdate` followed by `isoweekdate_to_rd`, and every valid ISO
week date (week bounded by `isoweeks_in_year`) survives the opposite
composition. -/
theorem claim5_iso_roundtrip :
    (∀ n : Int, RD_MIN ≤ n → n ≤ RD_MAX →
      isoweekdate_to_rd (rd_to_isoweekdate n) = n) ∧
    (∀ (y : Int) (w d : Nat), YEAR_MIN ≤ y → y ≤ YEAR_MAX →
      1 ≤ w → w ≤ isoweeks_in_year y → 1 ≤ d → d ≤ 7 →
      rd_to_isoweekdate (isoweekdate_to_rd (y, w, d)) = (y, w, d)) := by
  constructor
  · intro n h1 h2
    rw [RD_MIN_eq] at h1
    rw [RD_MAX_eq] at h2
    exact iso_rd_roundtrip n h1 h2
  · intro y w d hy1 hy2 hw1 hw2 hd1 hd7
    exact iso_date_roundtrip y w d hy1 hy2 hw1 hw2 hd1 hd7

/-- Witness for C5 at a concrete day number and a concrete ISO week date. -/
theorem claim5_iso_roundtrip_witness :
    isoweekdate_to_rd (rd_to_isoweekdate 19489) = 19489 ∧
      rd_to_isoweekdate (isoweekdate_to_rd (2023, 19, 5)) = (2023, 19, 5) :=
  ⟨claim5_iso_roundtrip.1 19489 (by decide) (by decide),
   claim5_iso_roundtrip.2 2023 19 5 (by decide) (by decide) (by decide) (by decide)
     (by decide) (by decide)⟩

/-- C8: `next_date` and `prev_date` move by exactly one calendar day:
for every valid Gregorian date other than `(YEAR_MAX, 12, 31)`,
`next_date` yields a valid date whose day number is one larger, and for
every valid date other than `(YEAR_MIN, 1, 1)`, `prev_date` yields a
valid date whose day number is one smaller. -/
theorem claim8_next_prev_date :
    ∀ (y : Int) (m d : Nat), ValidDate y m d →
      (¬(y = YEAR_MAX ∧ m = 12 ∧ d = 31) →
        ValidDate (next_date (y, m, d)).1 (next_date (y, m, d)).2.1
            (next_date (y, m, d)).2.2 ∧
          date_to_rd (next_date (y, m, d)) = date_to_rd (y, m, d) + 1) ∧
      (¬(y = YEAR_MIN ∧ m = 1 ∧ d = 1) →
        ValidDate (prev_date (y, m, d)).1 (prev_date (y, m, d)).2.1
            (prev_date (y, m, d)).2.2 ∧
          date_to_rd (prev_date (y, m, d)) = date_to_rd (y, m, d) - 1) :=
  fun y m d h =>
    ⟨fun hne => next_date_spec y m d h hne, fun hne => prev_date_spec y m d h hne⟩

/-- Witness for C8 at a concrete leap-February date. -/
theorem claim8_next_prev_date_witness :
    ValidDate 2024 2 28 ∧
      (ValidDate (next_date (2024, 2, 28)).1 (next_date (2024, 2, 28)).2.1
          (next_date (2024, 2, 28)).2.2 ∧
        date_to_rd (next_date (2024, 2, 28)) = date_to_rd (2024, 2, 28) + 1) ∧
      (ValidDate (prev_date (2024, 2, 28)).1 (prev_date (2024, 2, 28)).2.1
          (prev_date (2024, 2, 28)).2.2 ∧
        date_to_rd (prev_date (2024, 2, 28)) = date_to_rd (2024, 2, 28) - 1) :=
  ⟨by unfold ValidDate; decide,
   (claim8_next_prev_date 2024 2 28 (by unfold ValidDate; decide)).1 (by decide),
   (claim8_next_prev_date 2024 2 28 (by unfold ValidDate; decide)).2 (by decide)⟩

end Datealgo
